import Mathlib

/-!
Verification of the EV battery health monitor simulation engine.

This file gives a shallow embedding, over exact rationals, of the Python
simulation engine (`src/backend/simulation/`): the thermal safety state
machine, the battery physics model, the CC-CV charging generator, the
frequency-governed charging decision, the anomaly injector and the
orchestrator.  Floating-point numbers of the source are idealised as `ℚ`;
transcendental library calls (`np.exp`, `np.sin`) and pseudo-random draws
are passed in as explicit function/stream parameters, so every definition
stays a computable function of its inputs.  Log messages and logger calls
of the source are presentational and are not modelled.
-/

namespace EVBattery

/-- Clamp a rational into `[lo, hi]`, the behaviour of `np.clip(x, lo, hi)`. -/
def ratClip (x lo hi : ℚ) : ℚ := min (max x lo) hi

theorem ratClip_mem (x lo hi : ℚ) (h : lo ≤ hi) :
    lo ≤ ratClip x lo hi ∧ ratClip x lo hi ≤ hi := by
  unfold ratClip
  constructor
  · exact le_min (le_max_right x lo) h
  · exact min_le_right _ _

/-! ## Thermal safety manager (`thermal_safety.py`) -/

/-- Thermal status levels, `ThermalStatus` in `thermal_safety.py`. -/
inductive ThermalStatus where
  | normal
  | warning
  | critical
  | shutdown
deriving DecidableEq, Repr

/-- Temperature thresholds, the `ThermalThresholds` dataclass. -/
structure ThermalThresholds where
  warningTemp : ℚ
  criticalTemp : ℚ
  shutdownTemp : ℚ
  recoveryTemp : ℚ
deriving DecidableEq, Repr

/-- Default threshold values of the `ThermalThresholds` dataclass. -/
def defaultThresholds : ThermalThresholds :=
  { warningTemp := 50, criticalTemp := 55, shutdownTemp := 60, recoveryTemp := 45 }

/-- Kind tag of a `_log_event` history entry. -/
inductive ThermalEventType where
  | recovery
  | shutdown
  | critical
  | warning
deriving DecidableEq, Repr

/-- One entry of `event_history`; the human-readable message is presentational
and not modelled. -/
structure ThermalEvent where
  eventType : ThermalEventType
  temperature : ℚ
  timestamp : ℚ
deriving DecidableEq, Repr

/-- Mutable state of a `ThermalSafetyManager` (the `vehicle_id` string is used
only in log messages and is not modelled). -/
structure ThermalState where
  thresholds : ThermalThresholds
  currentStatus : ThermalStatus
  shutdownActive : Bool
  warningCount : ℕ
  eventHistory : List ThermalEvent
deriving DecidableEq, Repr

/-- State built by `ThermalSafetyManager.__init__` with default thresholds. -/
def initThermal : ThermalState :=
  { thresholds := defaultThresholds
    currentStatus := .normal
    shutdownActive := false
    warningCount := 0
    eventHistory := [] }

/-- The `_log_event` method: append an entry and keep only the last 1000. -/
def logEvent (s : ThermalState) (e : ThermalEvent) : ThermalState :=
  let h := s.eventHistory ++ [e]
  { s with eventHistory := if h.length > 1000 then h.drop (h.length - 1000) else h }

/-- The result dict returned by `check_temperature` (`message` omitted). -/
structure ThermalCheck where
  temperature : ℚ
  status : ThermalStatus
  actionRequired : Bool
  powerLimit : ℚ
  timestamp : ℚ
deriving DecidableEq, Repr

/-- The status dispatch of `check_temperature` (lines 95-148): the code run
after the shutdown-recovery block, with `prev` the status captured at entry. -/
def thermalDispatch (prev : ThermalStatus) (s : ThermalState) (currentTemp timestamp : ℚ) :
    ThermalCheck × ThermalState :=
  let base : ThermalCheck :=
    { temperature := currentTemp, status := .normal, actionRequired := false
      powerLimit := 1, timestamp := timestamp }
  if currentTemp ≥ s.thresholds.shutdownTemp then
    let s1 := logEvent { s with currentStatus := .shutdown, shutdownActive := true }
      { eventType := .shutdown, temperature := currentTemp, timestamp := timestamp }
    ({ base with status := .shutdown, powerLimit := 0, actionRequired := true }, s1)
  else if currentTemp ≥ s.thresholds.criticalTemp then
    let s1 := logEvent { s with currentStatus := .critical }
      { eventType := .critical, temperature := currentTemp, timestamp := timestamp }
    ({ base with status := .critical, powerLimit := 0.3, actionRequired := true }, s1)
  else if currentTemp ≥ s.thresholds.warningTemp then
    let s1 := logEvent { s with currentStatus := .warning, warningCount := s.warningCount + 1 }
      { eventType := .warning, temperature := currentTemp, timestamp := timestamp }
    ({ base with status := .warning, powerLimit := 0.7 }, s1)
  else
    let s1 := { s with currentStatus := .normal
                       warningCount := if prev ≠ ThermalStatus.normal then 0 else s.warningCount }
    (base, s1)

/-- The `check_temperature` method: shutdown-recovery hysteresis first (lines
79-93), then the status dispatch.  On recovery the code falls through to the
dispatch after clearing the flag, exactly as the Python does. -/
def checkTemperature (s : ThermalState) (currentTemp timestamp : ℚ) :
    ThermalCheck × ThermalState :=
  let prev := s.currentStatus
  if s.shutdownActive then
    if currentTemp ≤ s.thresholds.recoveryTemp then
      let s1 := logEvent { s with shutdownActive := false, currentStatus := .normal }
        { eventType := .recovery, temperature := currentTemp, timestamp := timestamp }
      thermalDispatch prev s1 currentTemp timestamp
    else
      ({ temperature := currentTemp, status := .shutdown, actionRequired := true
         powerLimit := 0, timestamp := timestamp }, s)
  else
    thermalDispatch prev s currentTemp timestamp

/-- Power limit the spec assigns to each thermal status. -/
def statusPowerLimit : ThermalStatus → ℚ
  | .normal => 1
  | .warning => 0.7
  | .critical => 0.3
  | .shutdown => 0

/-- Escalation rank of a thermal status (Normal lowest, Shutdown highest). -/
def statusRank : ThermalStatus → ℕ
  | .normal => 0
  | .warning => 1
  | .critical => 2
  | .shutdown => 3

theorem defaultThresholds_warning : defaultThresholds.warningTemp = 50 := rfl

theorem defaultThresholds_critical : defaultThresholds.criticalTemp = 55 := rfl

theorem defaultThresholds_shutdown : defaultThresholds.shutdownTemp = 60 := rfl

theorem defaultThresholds_recovery : defaultThresholds.recoveryTemp = 45 := rfl

theorem thermalDispatch_thresholds (prev : ThermalStatus) (s : ThermalState) (T t : ℚ) :
    (thermalDispatch prev s T t).2.thresholds = s.thresholds := by
  unfold thermalDispatch
  dsimp only
  split_ifs <;> rfl

theorem checkTemperature_thresholds (s : ThermalState) (T t : ℚ) :
    (checkTemperature s T t).2.thresholds = s.thresholds := by
  unfold checkTemperature
  dsimp only
  split_ifs
  · rw [thermalDispatch_thresholds]; rfl
  · rfl
  · rw [thermalDispatch_thresholds]

theorem thermalDispatch_powerLimit (prev : ThermalStatus) (s : ThermalState) (T t : ℚ) :
    (thermalDispatch prev s T t).1.powerLimit
      = statusPowerLimit (thermalDispatch prev s T t).1.status := by
  unfold thermalDispatch
  dsimp only
  split_ifs <;> rfl

theorem statusPowerLimit_nonneg (st : ThermalStatus) : 0 ≤ statusPowerLimit st := by
  cases st <;> norm_num [statusPowerLimit]

theorem checkTemperature_powerLimit_eq (s : ThermalState) (T t : ℚ) :
    (checkTemperature s T t).1.powerLimit
      = statusPowerLimit (checkTemperature s T t).1.status := by
  unfold checkTemperature
  dsimp only
  split_ifs
  · exact thermalDispatch_powerLimit _ _ _ _
  · rfl
  · exact thermalDispatch_powerLimit _ _ _ _

theorem checkTemperature_powerLimit_nonneg (s : ThermalState) (T t : ℚ) :
    0 ≤ (checkTemperature s T t).1.powerLimit := by
  rw [checkTemperature_powerLimit_eq]
  exact statusPowerLimit_nonneg _

/-- C5: the power limit returned by `check_temperature` is exactly the step
function of the returned status (Normal 1.0, Warning 0.7, Critical 0.3,
Shutdown 0.0), and that step function is monotonically non-increasing in the
escalation order of the status. -/
theorem checkTemperature_powerLimit_step (s : ThermalState) (T t : ℚ) :
    ((checkTemperature s T t).1.powerLimit
        = statusPowerLimit (checkTemperature s T t).1.status) ∧
    (∀ a b : ThermalStatus, statusRank a ≤ statusRank b →
        statusPowerLimit b ≤ statusPowerLimit a) := by
  constructor
  · exact checkTemperature_powerLimit_eq s T t
  · intro a b hab
    cases a <;> cases b <;> revert hab <;>
      norm_num [statusRank, statusPowerLimit]

theorem shutdownActive_early_return (s : ThermalState) (T t : ℚ)
    (hs : s.shutdownActive = true) (hT : ¬ T ≤ s.thresholds.recoveryTemp) :
    checkTemperature s T t =
      ({ temperature := T, status := .shutdown, actionRequired := true
         powerLimit := 0, timestamp := t }, s) := by
  unfold checkTemperature
  dsimp only
  split_ifs
  rfl

theorem thermalDispatch_shutdown (prev : ThermalStatus) (s : ThermalState) (T t : ℚ)
    (hT : T ≥ s.thresholds.shutdownTemp) :
    (thermalDispatch prev s T t).1.status = .shutdown ∧
    (thermalDispatch prev s T t).1.powerLimit = 0 ∧
    (thermalDispatch prev s T t).2.shutdownActive = true := by
  unfold thermalDispatch
  dsimp only
  rw [if_pos hT]
  exact ⟨rfl, rfl, rfl⟩

theorem thermalDispatch_normal (prev : ThermalStatus) (s : ThermalState) (T t : ℚ)
    (hsd : ¬ T ≥ s.thresholds.shutdownTemp) (hcr : ¬ T ≥ s.thresholds.criticalTemp)
    (hwr : ¬ T ≥ s.thresholds.warningTemp) :
    (thermalDispatch prev s T t).1.status = .normal ∧
    (thermalDispatch prev s T t).2.shutdownActive = s.shutdownActive := by
  unfold thermalDispatch
  dsimp only
  rw [if_neg hsd, if_neg hcr, if_neg hwr]
  exact ⟨rfl, rfl⟩

/-- Sequence form of the shutdown persistence property: starting from state
`s`, every call in the list (temperature, timestamp pairs) returns status
Shutdown with power limit 0 and leaves the shutdown flag set. -/
def shutdownPersists : ThermalState → List (ℚ × ℚ) → Prop
  | _, [] => True
  | s, c :: rest =>
    (checkTemperature s c.1 c.2).1.status = .shutdown ∧
    (checkTemperature s c.1 c.2).1.powerLimit = 0 ∧
    (checkTemperature s c.1 c.2).2.shutdownActive = true ∧
    shutdownPersists (checkTemperature s c.1 c.2).2 rest

theorem shutdownPersists_of_active (s : ThermalState)
    (hthr : s.thresholds = defaultThresholds) (hs : s.shutdownActive = true) :
    ∀ calls : List (ℚ × ℚ), (∀ c ∈ calls, (45:ℚ) < c.1) → shutdownPersists s calls := by
  intro calls
  induction calls generalizing s with
  | nil => intro _; trivial
  | cons c rest ih =>
    intro hall
    have hc : (45:ℚ) < c.1 := hall c (List.mem_cons_self c rest)
    have hrec : ¬ c.1 ≤ s.thresholds.recoveryTemp := by
      rw [hthr]; exact not_le.mpr hc
    have heq := shutdownActive_early_return s c.1 c.2 hs hrec
    refine ⟨?_, ?_, ?_, ?_⟩
    · rw [heq]
    · rw [heq]
    · rw [heq]; exact hs
    · rw [heq]
      exact ih s hthr hs (fun d hd => hall d (List.mem_cons_of_mem c hd))

/-- C2: once a call observes temperature at or above 60 °C (default
thresholds) the shutdown flag is set; from then on every call with
temperature above 45 °C returns status Shutdown with power limit 0.0 and
keeps the flag; and from any state with the flag set, a call with
temperature at most 45 °C clears the flag and returns status Normal — the
flag never clears above 45 °C. -/
theorem thermal_shutdown_hysteresis
    (s : ThermalState) (hthr : s.thresholds = defaultThresholds)
    (T t : ℚ) (hT : (60:ℚ) ≤ T) :
    ((checkTemperature s T t).2.shutdownActive = true) ∧
    (∀ calls : List (ℚ × ℚ), (∀ c ∈ calls, (45:ℚ) < c.1) →
        shutdownPersists (checkTemperature s T t).2 calls) ∧
    (∀ s₂ : ThermalState, s₂.thresholds = defaultThresholds →
        s₂.shutdownActive = true → ∀ T₂ t₂ : ℚ, T₂ ≤ 45 →
        (checkTemperature s₂ T₂ t₂).2.shutdownActive = false ∧
        (checkTemperature s₂ T₂ t₂).1.status = .normal) := by
  have hset : (checkTemperature s T t).2.shutdownActive = true := by
    unfold checkTemperature
    dsimp only
    split_ifs with h1 h2
    · rw [hthr, defaultThresholds_recovery] at h2
      linarith
    · exact h1
    · exact (thermalDispatch_shutdown _ _ _ _
        (by rw [hthr, defaultThresholds_shutdown]; exact hT)).2.2
  refine ⟨hset, ?_, ?_⟩
  · intro calls hall
    exact shutdownPersists_of_active _ (by rw [checkTemperature_thresholds, hthr]) hset calls hall
  · intro s₂ hthr₂ hs₂ T₂ t₂ hT₂
    have hrec : T₂ ≤ s₂.thresholds.recoveryTemp := by
      rw [hthr₂, defaultThresholds_recovery]; exact hT₂
    have hsd : ¬ T₂ ≥ s₂.thresholds.shutdownTemp := by
      rw [hthr₂, defaultThresholds_shutdown]; intro h; linarith
    have hcr : ¬ T₂ ≥ s₂.thresholds.criticalTemp := by
      rw [hthr₂, defaultThresholds_critical]; intro h; linarith
    have hwr : ¬ T₂ ≥ s₂.thresholds.warningTemp := by
      rw [hthr₂, defaultThresholds_warning]; intro h; linarith
    unfold checkTemperature
    dsimp only
    split_ifs
    obtain ⟨ha, hb⟩ := thermalDispatch_normal s₂.currentStatus
      (logEvent { s₂ with shutdownActive := false, currentStatus := .normal }
        { eventType := .recovery, temperature := T₂, timestamp := t₂ }) T₂ t₂ hsd hcr hwr
    exact ⟨hb, ha⟩

/-- Witness for C2 at a concrete input: the initial manager state, a 65 °C
reading at time 0. -/
theorem thermal_shutdown_hysteresis_witness :
    (initThermal.thresholds = defaultThresholds ∧ (60:ℚ) ≤ 65) ∧
    (((checkTemperature initThermal 65 0).2.shutdownActive = true) ∧
    (∀ calls : List (ℚ × ℚ), (∀ c ∈ calls, (45:ℚ) < c.1) →
        shutdownPersists (checkTemperature initThermal 65 0).2 calls) ∧
    (∀ s₂ : ThermalState, s₂.thresholds = defaultThresholds →
        s₂.shutdownActive = true → ∀ T₂ t₂ : ℚ, T₂ ≤ 45 →
        (checkTemperature s₂ T₂ t₂).2.shutdownActive = false ∧
        (checkTemperature s₂ T₂ t₂).1.status = .normal)) :=
  ⟨⟨rfl, by norm_num⟩,
    thermal_shutdown_hysteresis initThermal rfl 65 0 (by norm_num)⟩

/-! ## Battery model (`battery_model.py`) -/

/-- The `BatterySpecs` dataclass; the id/make/model/cell-configuration strings
are dropped except for the single fact `_estimate_range` reads off the make
(`make == 'Tesla'`), kept as the flag `makeTesla`. -/
structure BatterySpecs where
  makeTesla : Bool
  nominalCapacityKwh : ℚ
  nominalVoltage : ℚ
  maxVoltage : ℚ
  minVoltage : ℚ
  maxChargeCurrent : ℚ
  maxDischargeCurrent : ℚ
  thermalMass : ℚ
  internalResistance : ℚ
deriving DecidableEq, Repr

/-- The `VEH001` entry of `VEHICLE_SPECS` (Tesla Model 3). -/
def veh001 : BatterySpecs :=
  { makeTesla := true
    nominalCapacityKwh := 82
    nominalVoltage := 350
    maxVoltage := 420
    minVoltage := 300
    maxChargeCurrent := 200
    maxDischargeCurrent := -250
    thermalMass := 400
    internalResistance := 0.05 }

/-- The `VEH002` entry of `VEHICLE_SPECS` (Nissan Leaf). -/
def veh002 : BatterySpecs :=
  { makeTesla := false
    nominalCapacityKwh := 62
    nominalVoltage := 350
    maxVoltage := 403
    minVoltage := 300
    maxChargeCurrent := 100
    maxDischargeCurrent := -150
    thermalMass := 300
    internalResistance := 0.08 }

/-- Mutable state of a `BatteryModel` instance. -/
structure BState where
  soc : ℚ
  soh : ℚ
  temperature : ℚ
  voltage : ℚ
  current : ℚ
  ambientTemp : ℚ
  effectiveCapacityKwh : ℚ
  thermal : ThermalState
deriving DecidableEq, Repr

/-- The `_calculate_voltage` method: piecewise-linear open-circuit voltage. -/
def calcVoltage (specs : BatterySpecs) (soc : ℚ) : ℚ :=
  let socNorm := soc / 100
  let voltageNorm :=
    if socNorm < 0.1 then (socNorm / 0.1) * 0.2
    else if socNorm < 0.9 then 0.2 + ((socNorm - 0.1) / 0.8) * 0.6
    else 0.8 + ((socNorm - 0.9) / 0.1) * 0.2
  specs.minVoltage + voltageNorm * (specs.maxVoltage - specs.minVoltage)

/-- The `_calculate_voltage_under_load` method. -/
def voltageUnderLoad (specs : BatterySpecs) (soc current : ℚ) : ℚ :=
  ratClip (calcVoltage specs soc - current * specs.internalResistance)
    specs.minVoltage specs.maxVoltage

/-- State built by `BatteryModel.__init__`. -/
def initBattery (specs : BatterySpecs) (initialSoc initialTemp soh : ℚ) : BState :=
  { soc := initialSoc
    soh := soh
    temperature := initialTemp
    voltage := calcVoltage specs initialSoc
    current := 0
    ambientTemp := 20
    effectiveCapacityKwh := specs.nominalCapacityKwh * (soh / 100)
    thermal := initThermal }

/-- The `update_thermal` method: I²R plus charging-inefficiency heating,
Newtonian cooling, a thermal-safety check on the new temperature, and the 20 %
cold-capacity reduction when the new temperature is below 0 °C.  `now` models
the `datetime.now()` default timestamp of the inner `check_temperature` call. -/
def updateThermal (specs : BatterySpecs) (s : BState) (dt power now : ℚ) : BState :=
  let heatGenerated := |s.current| ^ 2 * specs.internalResistance
      + (if power > 0 then |power| * 0.05 else 0)
  let heatRemoved := 0.001 * (s.temperature - s.ambientTemp)
  let tempChange := (heatGenerated - heatRemoved) * dt / (specs.thermalMass * 1000)
  let newTemp := s.temperature + tempChange
  let checked := checkTemperature s.thermal newTemp now
  let effCap := if newTemp < 0 then specs.nominalCapacityKwh * (s.soh / 100) * 0.8
                else s.effectiveCapacityKwh
  { s with temperature := newTemp, thermal := checked.2, effectiveCapacityKwh := effCap }

/-- The `update_soc` method: energy integration with clamping to `[0, 100]`. -/
def updateSoc (specs : BatterySpecs) (s : BState) (current dt : ℚ) : BState :=
  let voltage := voltageUnderLoad specs s.soc current
  let power := voltage * current
  let energyChange := power * dt / 3600
  let socChange := energyChange / (s.effectiveCapacityKwh * 1000) * 100
  { s with soc := ratClip (s.soc + socChange) 0 100 }

/-- The temperature-derating factor computed inline in `apply_current`
(lines 208-215). -/
def tempDerate (temperature : ℚ) : ℚ :=
  if temperature > 45 then max 0.5 (1 - (temperature - 45) / 20)
  else if temperature < 0 then max 0.3 (1 + temperature / 20)
  else 1

/-- The `apply_current` method: thermal-safety check, derating, current
clamping with the CC-CV taper above 80 % SoC, voltage/power update, SoC
update, thermal update.  Returns the new state plus the Python return value
`(actual_current, voltage, power)`. -/
def applyCurrent (specs : BatterySpecs) (s : BState) (requestedCurrent dt now1 now2 : ℚ) :
    BState × ℚ × ℚ × ℚ :=
  let checked := checkTemperature s.thermal s.temperature now1
  let thermalPowerLimit := checked.1.powerLimit
  let powerLimit := min (tempDerate s.temperature) thermalPowerLimit
  let maxCurrent :=
    if requestedCurrent > 0 then
      let mc := specs.maxChargeCurrent * powerLimit
      if s.soc > 80 then mc * max 0.1 (1 - (s.soc - 80) / 20) else mc
    else specs.maxDischargeCurrent * powerLimit
  let cur := if requestedCurrent > 0 then min requestedCurrent maxCurrent
             else max requestedCurrent maxCurrent
  let s1 := { s with thermal := checked.2, current := cur }
  let volt := voltageUnderLoad specs s1.soc cur
  let s2 := { s1 with voltage := volt }
  let power := volt * cur
  let s3 := updateSoc specs s2 cur dt
  let s4 := updateThermal specs s3 dt power now2
  (s4, cur, volt, power)

theorem applyCurrent_soc_mem (specs : BatterySpecs) (s : BState) (req dt now1 now2 : ℚ) :
    0 ≤ (applyCurrent specs s req dt now1 now2).1.soc ∧
    (applyCurrent specs s req dt now1 now2).1.soc ≤ 100 := by
  unfold applyCurrent updateThermal updateSoc
  dsimp only
  exact ratClip_mem _ 0 100 (by norm_num)

/-- C1: for every initial SoC in `[0, 100]` and every finite sequence of
`apply_current(requested_current, dt)` calls with positive `dt`, the stored
SoC stays in `[0, 100]` after every call (each `update_soc` clamps the
integrated SoC to that range). -/
theorem applyCurrent_soc_invariant (specs : BatterySpecs) (s₀ : BState)
    (h0 : 0 ≤ s₀.soc) (h100 : s₀.soc ≤ 100)
    (calls : List (ℚ × ℚ × ℚ × ℚ)) (hdt : ∀ c ∈ calls, 0 < c.2.1) :
    ∀ s ∈ List.scanl (fun st c => (applyCurrent specs st c.1 c.2.1 c.2.2.1 c.2.2.2).1) s₀ calls,
      0 ≤ s.soc ∧ s.soc ≤ 100 := by
  induction calls generalizing s₀ with
  | nil =>
    intro s hs
    rw [List.scanl_nil, List.mem_singleton] at hs
    subst hs
    exact ⟨h0, h100⟩
  | cons c rest ih =>
    intro s hs
    rw [List.scanl_cons] at hs
    rcases List.mem_cons.mp hs with h | h
    · subst h; exact ⟨h0, h100⟩
    · have hb := applyCurrent_soc_mem specs s₀ c.1 c.2.1 c.2.2.1 c.2.2.2
      exact ih _ hb.1 hb.2 (fun d hd => hdt d (List.mem_cons_of_mem c hd)) s h

/-- Witness for C1: the VEH001 battery at 80 % SoC, one charging call then
one discharging call, each with `dt = 1`. -/
theorem applyCurrent_soc_invariant_witness :
    (0 ≤ (initBattery veh001 80 25 100).soc ∧ (initBattery veh001 80 25 100).soc ≤ 100 ∧
      (∀ c ∈ [((50:ℚ), (1:ℚ), (0:ℚ), (0:ℚ)), (-100, 1, 0, 0)], 0 < c.2.1)) ∧
    (∀ s ∈ List.scanl (fun st c => (applyCurrent veh001 st c.1 c.2.1 c.2.2.1 c.2.2.2).1)
        (initBattery veh001 80 25 100) [((50:ℚ), (1:ℚ), (0:ℚ), (0:ℚ)), (-100, 1, 0, 0)],
      0 ≤ s.soc ∧ s.soc ≤ 100) :=
  ⟨⟨by norm_num [initBattery], by norm_num [initBattery], by
      intro c hc
      rcases List.mem_cons.mp hc with h | h
      · subst h; norm_num
      · rw [List.mem_singleton] at h; subst h; norm_num⟩,
    applyCurrent_soc_invariant veh001 (initBattery veh001 80 25 100)
      (by norm_num [initBattery]) (by norm_num [initBattery]) _
      (by
        intro c hc
        rcases List.mem_cons.mp hc with h | h
        · subst h; norm_num
        · rw [List.mem_singleton] at h; subst h; norm_num)⟩

theorem tempDerate_nonneg (T : ℚ) : 0 ≤ tempDerate T := by
  unfold tempDerate
  split_ifs
  · exact le_trans (by norm_num) (le_max_left _ _)
  · exact le_trans (by norm_num) (le_max_left _ _)
  · norm_num

theorem applyCurrent_actual_eq (specs : BatterySpecs) (s : BState) (req dt now1 now2 : ℚ) :
    (applyCurrent specs s req dt now1 now2).2.1 =
      if req > 0 then
        min req (if s.soc > 80
          then specs.maxChargeCurrent
              * min (tempDerate s.temperature)
                  (checkTemperature s.thermal s.temperature now1).1.powerLimit
              * max 0.1 (1 - (s.soc - 80) / 20)
          else specs.maxChargeCurrent
              * min (tempDerate s.temperature)
                  (checkTemperature s.thermal s.temperature now1).1.powerLimit)
      else max req (specs.maxDischargeCurrent
          * min (tempDerate s.temperature)
              (checkTemperature s.thermal s.temperature now1).1.powerLimit) := by
  unfold applyCurrent
  dsimp only
  split_ifs <;> rfl

/-- C6: the actual current returned by `apply_current` has magnitude at most
`limit × max_charge_current` when charging (times the linear CC-CV taper
`max(0.1, 1 − (SoC − 80)/20)` when SoC is above 80 %), and at most
`limit × |max_discharge_current|` otherwise, where `limit` is the minimum of
the temperature derate and the thermal-safety power limit. -/
theorem applyCurrent_current_bound (specs : BatterySpecs) (s : BState) (req dt now1 now2 : ℚ)
    (hc : 0 ≤ specs.maxChargeCurrent) (hd : specs.maxDischargeCurrent ≤ 0) :
    (req > 0 → s.soc ≤ 80 → |(applyCurrent specs s req dt now1 now2).2.1|
        ≤ min (tempDerate s.temperature)
            (checkTemperature s.thermal s.temperature now1).1.powerLimit
          * specs.maxChargeCurrent) ∧
    (req > 0 → s.soc > 80 → |(applyCurrent specs s req dt now1 now2).2.1|
        ≤ min (tempDerate s.temperature)
            (checkTemperature s.thermal s.temperature now1).1.powerLimit
          * specs.maxChargeCurrent * max 0.1 (1 - (s.soc - 80) / 20)) ∧
    (req ≤ 0 → |(applyCurrent specs s req dt now1 now2).2.1|
        ≤ min (tempDerate s.temperature)
            (checkTemperature s.thermal s.temperature now1).1.powerLimit
          * |specs.maxDischargeCurrent|) := by
  have hL0 : 0 ≤ min (tempDerate s.temperature)
      (checkTemperature s.thermal s.temperature now1).1.powerLimit :=
    le_min (tempDerate_nonneg _) (checkTemperature_powerLimit_nonneg _ _ _)
  rw [applyCurrent_actual_eq]
  refine ⟨?_, ?_, ?_⟩
  · intro hreq hsoc
    rw [if_pos hreq, if_neg (not_lt.mpr hsoc)]
    have hM0 : 0 ≤ specs.maxChargeCurrent
        * min (tempDerate s.temperature)
            (checkTemperature s.thermal s.temperature now1).1.powerLimit :=
      mul_nonneg hc hL0
    rw [abs_of_nonneg (le_min (le_of_lt hreq) hM0)]
    calc min req _ ≤ _ := min_le_right _ _
      _ = _ := mul_comm _ _
  · intro hreq hsoc
    rw [if_pos hreq, if_pos hsoc]
    have htaper : (0:ℚ) ≤ max 0.1 (1 - (s.soc - 80) / 20) :=
      le_trans (by norm_num) (le_max_left _ _)
    have hM0 : 0 ≤ specs.maxChargeCurrent
        * min (tempDerate s.temperature)
            (checkTemperature s.thermal s.temperature now1).1.powerLimit
        * max 0.1 (1 - (s.soc - 80) / 20) :=
      mul_nonneg (mul_nonneg hc hL0) htaper
    rw [abs_of_nonneg (le_min (le_of_lt hreq) hM0)]
    calc min req _ ≤ _ := min_le_right _ _
      _ = _ := by ring
  · intro hreq
    rw [if_neg (not_lt.mpr hreq)]
    have hM0 : specs.maxDischargeCurrent
        * min (tempDerate s.temperature)
            (checkTemperature s.thermal s.temperature now1).1.powerLimit ≤ 0 :=
      mul_nonpos_of_nonpos_of_nonneg hd hL0
    have hmax0 : max req (specs.maxDischargeCurrent
        * min (tempDerate s.temperature)
            (checkTemperature s.thermal s.temperature now1).1.powerLimit) ≤ 0 :=
      max_le hreq hM0
    rw [abs_of_nonpos hmax0, abs_of_nonpos hd]
    have : specs.maxDischargeCurrent
        * min (tempDerate s.temperature)
            (checkTemperature s.thermal s.temperature now1).1.powerLimit
        ≤ max req (specs.maxDischargeCurrent
          * min (tempDerate s.temperature)
              (checkTemperature s.thermal s.temperature now1).1.powerLimit) :=
      le_max_right _ _
    nlinarith [this]

/-- Witness for C6: VEH001 specs (non-negative charge limit, non-positive
discharge limit) at the freshly initialised 80 % SoC state. -/
theorem applyCurrent_current_bound_witness :
    ((0:ℚ) ≤ veh001.maxChargeCurrent ∧ veh001.maxDischargeCurrent ≤ 0) ∧
    (((50:ℚ) > 0 → (initBattery veh001 80 25 100).soc ≤ 80 →
        |(applyCurrent veh001 (initBattery veh001 80 25 100) 50 1 0 0).2.1|
        ≤ min (tempDerate (initBattery veh001 80 25 100).temperature)
            (checkTemperature (initBattery veh001 80 25 100).thermal
              (initBattery veh001 80 25 100).temperature 0).1.powerLimit
          * veh001.maxChargeCurrent) ∧
    ((50:ℚ) > 0 → (initBattery veh001 80 25 100).soc > 80 →
        |(applyCurrent veh001 (initBattery veh001 80 25 100) 50 1 0 0).2.1|
        ≤ min (tempDerate (initBattery veh001 80 25 100).temperature)
            (checkTemperature (initBattery veh001 80 25 100).thermal
              (initBattery veh001 80 25 100).temperature 0).1.powerLimit
          * veh001.maxChargeCurrent
          * max 0.1 (1 - ((initBattery veh001 80 25 100).soc - 80) / 20)) ∧
    ((50:ℚ) ≤ 0 →
        |(applyCurrent veh001 (initBattery veh001 80 25 100) 50 1 0 0).2.1|
        ≤ min (tempDerate (initBattery veh001 80 25 100).temperature)
            (checkTemperature (initBattery veh001 80 25 100).thermal
              (initBattery veh001 80 25 100).temperature 0).1.powerLimit
          * |veh001.maxDischargeCurrent|)) :=
  ⟨⟨by norm_num [veh001], by norm_num [veh001]⟩,
    applyCurrent_current_bound veh001 (initBattery veh001 80 25 100) 50 1 0 0
      (by norm_num [veh001]) (by norm_num [veh001])⟩

theorem applyCurrent_soh (specs : BatterySpecs) (s : BState) (req dt now1 now2 : ℚ) :
    (applyCurrent specs s req dt now1 now2).1.soh = s.soh := rfl

theorem applyCurrent_effCap_cases (specs : BatterySpecs) (s : BState) (req dt now1 now2 : ℚ) :
    ((applyCurrent specs s req dt now1 now2).1.temperature < 0 →
      (applyCurrent specs s req dt now1 now2).1.effectiveCapacityKwh
        = specs.nominalCapacityKwh * (s.soh / 100) * 0.8) ∧
    (0 ≤ (applyCurrent specs s req dt now1 now2).1.temperature →
      (applyCurrent specs s req dt now1 now2).1.effectiveCapacityKwh
        = s.effectiveCapacityKwh) := by
  unfold applyCurrent updateThermal updateSoc
  dsimp only
  constructor <;> intro h
  · rw [if_pos h]
  · rw [if_neg (not_lt.mpr h)]

/-- C9: once an `apply_current` step leaves the battery temperature below
0 °C, the effective capacity is set to `nominal × SoH/100 × 0.8`; and from any
state already carrying that cold-reduced capacity, every further sequence of
`apply_current` calls (warm or cold) leaves it at exactly that value — the
20 % reduction is never undone, because `update_thermal` has no branch
restoring the capacity at or above 0 °C. -/
theorem coldCapacity_persists (specs : BatterySpecs) :
    (∀ s : BState, ∀ req dt now1 now2 : ℚ,
        (applyCurrent specs s req dt now1 now2).1.temperature < 0 →
        (applyCurrent specs s req dt now1 now2).1.effectiveCapacityKwh
          = specs.nominalCapacityKwh * (s.soh / 100) * 0.8) ∧
    (∀ s : BState,
        s.effectiveCapacityKwh = specs.nominalCapacityKwh * (s.soh / 100) * 0.8 →
        ∀ calls : List (ℚ × ℚ × ℚ × ℚ),
          (calls.foldl (fun st c => (applyCurrent specs st c.1 c.2.1 c.2.2.1 c.2.2.2).1)
              s).effectiveCapacityKwh
            = specs.nominalCapacityKwh * (s.soh / 100) * 0.8) := by
  constructor
  · intro s req dt now1 now2 h
    exact (applyCurrent_effCap_cases specs s req dt now1 now2).1 h
  · intro s hs calls
    induction calls generalizing s with
    | nil => simpa using hs
    | cons c rest ih =>
      rw [List.foldl_cons]
      have hsoh := applyCurrent_soh specs s c.1 c.2.1 c.2.2.1 c.2.2.2
      have hstep : (applyCurrent specs s c.1 c.2.1 c.2.2.1 c.2.2.2).1.effectiveCapacityKwh
          = specs.nominalCapacityKwh * (s.soh / 100) * 0.8 := by
        rcases lt_or_ge ((applyCurrent specs s c.1 c.2.1 c.2.2.1 c.2.2.2).1.temperature) 0 with h | h
        · exact (applyCurrent_effCap_cases specs s c.1 c.2.1 c.2.2.1 c.2.2.2).1 h
        · rw [(applyCurrent_effCap_cases specs s c.1 c.2.1 c.2.2.1 c.2.2.2).2 h]
          exact hs
      have hnext := ih (applyCurrent specs s c.1 c.2.1 c.2.2.1 c.2.2.2).1
        (by rw [hsoh]; exact hstep)
      rw [hnext, hsoh]

/-- Concrete cold battery: VEH001 at 80 % SoC, −5 °C, idle request. -/
def coldProbe : BState := initBattery veh001 80 (-5) 100

/-- Concrete state already carrying the cold-reduced effective capacity. -/
def coldCapped : BState :=
  { initBattery veh001 80 25 100 with
    effectiveCapacityKwh := veh001.nominalCapacityKwh * ((100:ℚ) / 100) * 0.8 }

/-- Witness for C9: an idle step on the −5 °C battery stays below 0 °C and
pins the capacity at 80 %, and one further call from a cold-capped state
leaves it unchanged. -/
theorem coldCapacity_persists_witness :
    ((applyCurrent veh001 coldProbe 0 1 0 0).1.temperature < 0 ∧
      coldCapped.effectiveCapacityKwh
        = veh001.nominalCapacityKwh * (coldCapped.soh / 100) * 0.8) ∧
    ((applyCurrent veh001 coldProbe 0 1 0 0).1.effectiveCapacityKwh
        = veh001.nominalCapacityKwh * (coldProbe.soh / 100) * 0.8 ∧
      (([((1:ℚ), (1:ℚ), (0:ℚ), (0:ℚ))].foldl
          (fun st c => (applyCurrent veh001 st c.1 c.2.1 c.2.2.1 c.2.2.2).1)
          coldCapped)).effectiveCapacityKwh
        = veh001.nominalCapacityKwh * (coldCapped.soh / 100) * 0.8) := by
  have hTemp : (applyCurrent veh001 coldProbe 0 1 0 0).1.temperature < 0 := by
    norm_num [applyCurrent, updateThermal, updateSoc, voltageUnderLoad, calcVoltage,
      ratClip, tempDerate, checkTemperature, thermalDispatch, logEvent, initThermal,
      initBattery, veh001, defaultThresholds, coldProbe, min_def, max_def]
  have hCap : coldCapped.effectiveCapacityKwh
      = veh001.nominalCapacityKwh * (coldCapped.soh / 100) * 0.8 := by
    norm_num [coldCapped, initBattery, veh001]
  exact ⟨⟨hTemp, hCap⟩,
    (coldCapacity_persists veh001).1 coldProbe 0 1 0 0 hTemp,
    (coldCapacity_persists veh001).2 coldCapped hCap [(1, 1, 0, 0)]⟩

/-! ## Pseudo-random streams and wall clock

Python's process-wide seeded generators (`random.*` and `np.random.*`) and
the wall clock `datetime.now()` are modelled as three result streams indexed
by call order, with a counter per stream.  A fixed seed fixes the two random
streams; the clock stream is the execution environment. -/

/-- The three ambient input streams: results of `random.*` primitive calls,
of `np.random.*` primitive calls, and of `datetime.now()` reads (seconds
since the epoch), each in call order. -/
structure Rng where
  py : ℕ → ℚ
  npr : ℕ → ℚ
  clock : ℕ → ℚ

/-- Consumption counters for the three streams. -/
structure Ctr where
  pyK : ℕ
  npK : ℕ
  clkK : ℕ
deriving DecidableEq, Repr

/-- Initial counters. -/
def ctr0 : Ctr := { pyK := 0, npK := 0, clkK := 0 }

/-- A `random.random()` call. -/
def pyDraw (r : Rng) (c : Ctr) : ℚ × Ctr := (r.py c.pyK, { c with pyK := c.pyK + 1 })

/-- An `np.random.*` primitive call (raw draw). -/
def npDraw (r : Rng) (c : Ctr) : ℚ × Ctr := (r.npr c.npK, { c with npK := c.npK + 1 })

/-- A `datetime.now()` read. -/
def clkDraw (r : Rng) (c : Ctr) : ℚ × Ctr :=
  (r.clock c.clkK, { c with clkK := c.clkK + 1 })

/-- `random.uniform(a, b)`, modelled as `a + u·(b − a)` on the raw draw. -/
def pyUniform (a b : ℚ) (r : Rng) (c : Ctr) : ℚ × Ctr :=
  let d := pyDraw r c
  (a + d.1 * (b - a), d.2)

/-- `np.random.uniform(a, b)`. -/
def npUniform (a b : ℚ) (r : Rng) (c : Ctr) : ℚ × Ctr :=
  let d := npDraw r c
  (a + d.1 * (b - a), d.2)

/-- `np.random.normal(mu, sigma)`, modelled as `mu + sigma·g` on the raw
draw. -/
def npNormal (mu sigma : ℚ) (r : Rng) (c : Ctr) : ℚ × Ctr :=
  let d := npDraw r c
  (mu + sigma * d.1, d.2)

/-- `random.randint(a, b)` (inclusive bounds), the raw draw mapped into the
range. -/
def pyRandint (a b : ℕ) (r : Rng) (c : Ctr) : ℕ × Ctr :=
  let d := pyDraw r c
  (a + (Int.toNat ⌊d.1⌋) % (b - a + 1), d.2)

/-- `random.choice` on an `n`-element sequence: the chosen index. -/
def pyChoiceIdx (n : ℕ) (r : Rng) (c : Ctr) : ℕ × Ctr :=
  let d := pyDraw r c
  ((Int.toNat ⌊d.1⌋) % n, d.2)

/-! ## Charging pattern generator (`charging_patterns.py`)

The `np.exp` call of the CV phase is abstracted as an explicit function
parameter `expQ`; the noise draws of each loop iteration (the 1 % Gaussian
jitter, the dip-chance draw compared with 0.02, and the dip factor drawn
from `uniform(0.7, 0.9)`) consume the shared `np.random` stream. -/

/-- The `ChargingType` enum. -/
inductive ChargingType where
  | acL1
  | acL2
  | dcFast
  | supercharger
deriving DecidableEq, Repr

/-- The `max_power_kw` field of `CHARGING_SPECS`. -/
def chargerMaxPowerKw : ChargingType → ℚ
  | .acL1 => 1.4
  | .acL2 => 11
  | .dcFast => 50
  | .supercharger => 150

/-- The `efficiency` field of `CHARGING_SPECS`. -/
def chargerEfficiency : ChargingType → ℚ
  | .acL1 => 0.85
  | .acL2 => 0.9
  | .dcFast => 0.95
  | .supercharger => 0.97

/-- One iteration of the `generate_cc_cv_profile` loop: nominal current from
the CC/CV phase logic (with the Supercharger in-CC taper and the 10-second
start ramp), efficiency-scaled SoC integration, then jitter and transient dip
layered onto the reported current only.  Returns
`((reported current, new SoC, new completed flag), counters)`. -/
def ccCvStep (ct : ChargingType) (bv capKwh dt targetSoc cvTransition : ℚ)
    (expQ : ℚ → ℚ) (r : Rng) (i : ℕ) (soc : ℚ) (completed : Bool) (c : Ctr) :
    (ℚ × ℚ × Bool) × Ctr :=
  let maxCurrent := chargerMaxPowerKw ct * 1000 / bv
  let current :=
    if soc ≥ targetSoc then 0
    else if soc < cvTransition then
      let cc :=
        if ct = ChargingType.supercharger then
          let powerFactor :=
            if soc < 20 then 1
            else if soc < 50 then 0.9
            else 0.8 - (soc - 50) * 0.005
          maxCurrent * powerFactor
        else maxCurrent
      if (i : ℚ) < 10 / dt then cc * ((i : ℚ) * dt / 10) else cc
    else
      maxCurrent * expQ (-(soc - cvTransition) / 10) * 0.5
  let completed' := if soc ≥ targetSoc then true else completed
  let effectiveCurrent := current * chargerEfficiency ct
  let power := effectiveCurrent * bv
  let energyDelivered := power * dt / 3600
  let socIncrement := energyDelivered / (capKwh * 1000) * 100
  let soc' := min (soc + socIncrement) 100
  let rep :=
    if current > 0 then
      let d1 := npNormal 0 0.01 r c
      let c1v := current * (1 + d1.1)
      let d2 := npDraw r d1.2
      if d2.1 < 0.02 then
        let d3 := npUniform 0.7 0.9 r d2.2
        (c1v * d3.1, d3.2)
      else (c1v, d2.2)
    else (current, c)
  ((rep.1, soc', completed'), rep.2)

/-- The `for i in range(samples)` loop of `generate_cc_cv_profile`, with `n`
the remaining iterations and `i` the current index.  Returns
`((current_profile, soc_profile, completed), counters)`. -/
def ccCvLoop (ct : ChargingType) (bv capKwh dt targetSoc cvTransition : ℚ)
    (expQ : ℚ → ℚ) (r : Rng) :
    ℕ → ℕ → ℚ → Bool → Ctr → (List ℚ × List ℚ × Bool) × Ctr
  | 0, _, _, completed, c => (([], [], completed), c)
  | n + 1, i, soc, completed, c =>
    let step := ccCvStep ct bv capKwh dt targetSoc cvTransition expQ r i soc completed c
    let rest := ccCvLoop ct bv capKwh dt targetSoc cvTransition expQ r n (i + 1)
        step.1.2.1 step.1.2.2 step.2
    ((step.1.1 :: rest.1.1, step.1.2.1 :: rest.1.2.1, rest.1.2.2), rest.2)

/-- The `generate_cc_cv_profile` method: sample count, class-specific CC→CV
transition point, then the per-second loop. -/
def generateCcCvProfile (ct : ChargingType) (bv initialSoc targetSoc capKwh : ℚ)
    (durationSeconds : ℕ) (dt : ℚ) (expQ : ℚ → ℚ) (r : Rng) (c : Ctr) :
    (List ℚ × List ℚ × Bool) × Ctr :=
  let samples := (Int.floor ((durationSeconds : ℚ) / dt)).toNat
  let cvTransition : ℚ :=
    if ct = ChargingType.dcFast ∨ ct = ChargingType.supercharger then 80 else 85
  ccCvLoop ct bv capKwh dt targetSoc cvTransition expQ r samples 0 initialSoc false c

/-- SoC with which loop iteration `k` starts: the initial SoC for `k = 0`,
else the SoC recorded by the previous iteration. -/
def socEntering (initialSoc : ℚ) (socProfile : List ℚ) (k : ℕ) : ℚ :=
  if k = 0 then initialSoc else socProfile.getD (k - 1) 0

theorem socEntering_zero (s : ℚ) (xs : List ℚ) : socEntering s xs 0 = s := rfl

theorem socEntering_succ (s x : ℚ) (xs : List ℚ) (k : ℕ) :
    socEntering s (x :: xs) (k + 1) = socEntering x xs k := by
  cases k with
  | zero => rfl
  | succ j => simp [socEntering]

theorem ccCvStep_soc_le (ct : ChargingType) (bv capKwh dt targetSoc cvTransition : ℚ)
    (expQ : ℚ → ℚ) (r : Rng) (i : ℕ) (soc : ℚ) (completed : Bool) (c : Ctr) :
    (ccCvStep ct bv capKwh dt targetSoc cvTransition expQ r i soc completed c).1.2.1
      ≤ 100 := by
  unfold ccCvStep
  dsimp only
  exact min_le_right _ _

theorem ccCvStep_completed_iff (ct : ChargingType) (bv capKwh dt targetSoc cvTransition : ℚ)
    (expQ : ℚ → ℚ) (r : Rng) (i : ℕ) (soc : ℚ) (completed : Bool) (c : Ctr) :
    ((ccCvStep ct bv capKwh dt targetSoc cvTransition expQ r i soc completed c).1.2.2 = true
      ↔ (targetSoc ≤ soc ∨ completed = true)) := by
  unfold ccCvStep
  dsimp only
  split_ifs with h
  · simp [h]
  · simp [h]

theorem ccCvStep_triggered (ct : ChargingType) (bv capKwh dt targetSoc cvTransition : ℚ)
    (expQ : ℚ → ℚ) (r : Rng) (i : ℕ) (soc : ℚ) (completed : Bool) (c : Ctr)
    (htrig : targetSoc ≤ soc) (hle : soc ≤ 100) :
    (ccCvStep ct bv capKwh dt targetSoc cvTransition expQ r i soc completed c).1
      = (0, soc, true) := by
  unfold ccCvStep
  dsimp only
  rw [if_pos htrig, if_pos htrig]
  norm_num [min_eq_left hle]

theorem ccCvLoop_length (ct : ChargingType) (bv capKwh dt targetSoc cvTransition : ℚ)
    (expQ : ℚ → ℚ) (r : Rng) :
    ∀ (n i : ℕ) (soc : ℚ) (completed : Bool) (c : Ctr),
      (ccCvLoop ct bv capKwh dt targetSoc cvTransition expQ r n i soc completed c).1.1.length
          = n ∧
      (ccCvLoop ct bv capKwh dt targetSoc cvTransition expQ r n i soc completed c).1.2.1.length
          = n := by
  intro n
  induction n with
  | zero => intro i soc completed c; exact ⟨rfl, rfl⟩
  | succ n ih =>
    intro i soc completed c
    unfold ccCvLoop
    dsimp only
    constructor
    · rw [List.length_cons, (ih _ _ _ _).1]
    · rw [List.length_cons, (ih _ _ _ _).2]

theorem ccCvLoop_spec (ct : ChargingType) (bv capKwh dt targetSoc cvTransition : ℚ)
    (expQ : ℚ → ℚ) (r : Rng) :
    ∀ (n i : ℕ) (soc : ℚ) (completed : Bool) (c : Ctr), soc ≤ 100 →
      (((ccCvLoop ct bv capKwh dt targetSoc cvTransition expQ r n i soc completed c).1.2.2
          = true
        ↔ (completed = true ∨ ∃ k, k < n ∧ targetSoc ≤ socEntering soc
            (ccCvLoop ct bv capKwh dt targetSoc cvTransition expQ r n i soc
              completed c).1.2.1 k)) ∧
      (∀ k₀, k₀ < n → targetSoc ≤ socEntering soc
            (ccCvLoop ct bv capKwh dt targetSoc cvTransition expQ r n i soc
              completed c).1.2.1 k₀ →
          ∀ k, k₀ ≤ k → k < n →
            (ccCvLoop ct bv capKwh dt targetSoc cvTransition expQ r n i soc
              completed c).1.1.getD k 0 = 0)) := by
  intro n
  induction n with
  | zero =>
    intro i soc completed c _
    refine ⟨?_, ?_⟩
    · simp [ccCvLoop]
    · intro k₀ hk₀
      exact absurd hk₀ (Nat.not_lt_zero _)
  | succ n ih =>
    intro i soc completed c hsoc
    by_cases htrig : targetSoc ≤ soc
    · -- the target is already reached at the head iteration
      have hstep := ccCvStep_triggered ct bv capKwh dt targetSoc cvTransition expQ r
        i soc completed c htrig hsoc
      have ihs := ih (i + 1)
        (ccCvStep ct bv capKwh dt targetSoc cvTransition expQ r i soc completed c).1.2.1
        (ccCvStep ct bv capKwh dt targetSoc cvTransition expQ r i soc completed c).1.2.2
        (ccCvStep ct bv capKwh dt targetSoc cvTransition expQ r i soc completed c).2
        (ccCvStep_soc_le ct bv capKwh dt targetSoc cvTransition expQ r i soc completed c)
      refine ⟨?_, ?_⟩
      · constructor
        · intro _
          refine Or.inr ⟨0, Nat.succ_pos n, ?_⟩
          rw [socEntering_zero]
          exact htrig
        · intro _
          show (ccCvLoop ct bv capKwh dt targetSoc cvTransition expQ r (n+1) i soc
              completed c).1.2.2 = true
          unfold ccCvLoop
          dsimp only
          rcases (ihs.1) with ⟨_, hiff2⟩
          apply hiff2
          left
          rw [hstep]
      · intro k₀ _ _ k _ hk
        show (ccCvLoop ct bv capKwh dt targetSoc cvTransition expQ r (n+1) i soc
            completed c).1.1.getD k 0 = 0
        unfold ccCvLoop
        dsimp only
        cases k with
        | zero => rw [hstep]; rfl
        | succ m =>
          rw [List.getD_cons_succ]
          have hm : m < n := by omega
          exact ihs.2 0 (by omega)
            (by rw [socEntering_zero, hstep]; exact htrig) m (Nat.zero_le m) hm
    · -- target not reached at the head iteration
      have hc2 : (ccCvStep ct bv capKwh dt targetSoc cvTransition expQ r
          i soc completed c).1.2.2 = completed := by
        unfold ccCvStep
        dsimp only
        rw [if_neg htrig]
      have ihs := ih (i + 1)
        (ccCvStep ct bv capKwh dt targetSoc cvTransition expQ r i soc completed c).1.2.1
        (ccCvStep ct bv capKwh dt targetSoc cvTransition expQ r i soc completed c).1.2.2
        (ccCvStep ct bv capKwh dt targetSoc cvTransition expQ r i soc completed c).2
        (ccCvStep_soc_le ct bv capKwh dt targetSoc cvTransition expQ r i soc completed c)
      refine ⟨?_, ?_⟩
      · show ((ccCvLoop ct bv capKwh dt targetSoc cvTransition expQ r (n+1) i soc
            completed c).1.2.2 = true ↔ _)
        unfold ccCvLoop
        dsimp only
        rw [ihs.1, hc2]
        constructor
        · rintro (h | ⟨k, hk, hle⟩)
          · exact Or.inl h
          · exact Or.inr ⟨k + 1, by omega, by rw [socEntering_succ]; exact hle⟩
        · rintro (h | ⟨k, hk, hle⟩)
          · exact Or.inl h
          · cases k with
            | zero =>
              rw [socEntering_zero] at hle
              exact absurd hle htrig
            | succ m =>
              rw [socEntering_succ] at hle
              exact Or.inr ⟨m, by omega, hle⟩
      · intro k₀ hk₀ hent k hk₀k hk
        revert hent
        show targetSoc ≤ socEntering soc
            (ccCvLoop ct bv capKwh dt targetSoc cvTransition expQ r (n+1) i soc
              completed c).1.2.1 k₀ →
          (ccCvLoop ct bv capKwh dt targetSoc cvTransition expQ r (n+1) i soc
            completed c).1.1.getD k 0 = 0
        unfold ccCvLoop
        dsimp only
        intro hent
        cases k₀ with
        | zero =>
          rw [socEntering_zero] at hent
          exact absurd hent htrig
        | succ m₀ =>
          rw [socEntering_succ] at hent
          cases k with
          | zero => omega
          | succ m =>
            rw [List.getD_cons_succ]
            exact ihs.2 m₀ (by omega) hent m (by omega) (by omega)

/-- C7: the `completed` flag returned by `generate_cc_cv_profile` is true iff
some loop iteration within the duration budget starts with the integrated SoC
at or above `target_soc`; and from the first such iteration on, every emitted
sample has current exactly 0 in the returned profile. -/
theorem ccCv_completed_iff (ct : ChargingType) (bv initialSoc targetSoc capKwh : ℚ)
    (durationSeconds : ℕ) (dt : ℚ) (expQ : ℚ → ℚ) (r : Rng) (c : Ctr)
    (hsoc : initialSoc ≤ 100) :
    (((generateCcCvProfile ct bv initialSoc targetSoc capKwh durationSeconds dt
          expQ r c).1.2.2 = true
      ↔ ∃ k, k < (generateCcCvProfile ct bv initialSoc targetSoc capKwh durationSeconds dt
          expQ r c).1.1.length ∧
        targetSoc ≤ socEntering initialSoc
          (generateCcCvProfile ct bv initialSoc targetSoc capKwh durationSeconds dt
            expQ r c).1.2.1 k) ∧
    (∀ k₀, k₀ < (generateCcCvProfile ct bv initialSoc targetSoc capKwh durationSeconds dt
          expQ r c).1.1.length →
        targetSoc ≤ socEntering initialSoc
          (generateCcCvProfile ct bv initialSoc targetSoc capKwh durationSeconds dt
            expQ r c).1.2.1 k₀ →
        ∀ k, k₀ ≤ k →
          k < (generateCcCvProfile ct bv initialSoc targetSoc capKwh durationSeconds dt
            expQ r c).1.1.length →
          (generateCcCvProfile ct bv initialSoc targetSoc capKwh durationSeconds dt
            expQ r c).1.1.getD k 0 = 0)) := by
  have hlen := ccCvLoop_length ct bv capKwh dt targetSoc
    (if ct = ChargingType.dcFast ∨ ct = ChargingType.supercharger then (80:ℚ) else 85)
    expQ r (Int.floor ((durationSeconds : ℚ) / dt)).toNat 0 initialSoc false c
  have hspec := ccCvLoop_spec ct bv capKwh dt targetSoc
    (if ct = ChargingType.dcFast ∨ ct = ChargingType.supercharger then (80:ℚ) else 85)
    expQ r (Int.floor ((durationSeconds : ℚ) / dt)).toNat 0 initialSoc false c hsoc
  constructor
  · show ((ccCvLoop ct bv capKwh dt targetSoc _ expQ r _ 0 initialSoc false c).1.2.2
        = true ↔ _)
    rw [hspec.1]
    unfold generateCcCvProfile
    dsimp only
    rw [hlen.1]
    simp only [Bool.false_eq_true, false_or]
  · intro k₀ hk₀ hent k hk₀k hk
    unfold generateCcCvProfile at hk₀ hent hk ⊢
    dsimp only at hk₀ hent hk ⊢
    rw [hlen.1] at hk₀ hk
    exact hspec.2 k₀ hk₀ hent k hk₀k hk

/-- Constant unit streams for witnesses. -/
def oneRng : Rng := { py := fun _ => 1, npr := fun _ => 1, clock := fun _ => 1 }

/-- Witness for C7: AC-L2, initial SoC 90 already above the target 80,
duration 3 s — the profile completes at once and emits zero current. -/
theorem ccCv_completed_iff_witness :
    ((90:ℚ) ≤ 100) ∧
    (((generateCcCvProfile ChargingType.acL2 350 90 80 82 3 1
          (fun _ => 1) oneRng ctr0).1.2.2 = true
      ↔ ∃ k, k < (generateCcCvProfile ChargingType.acL2 350 90 80 82 3 1
          (fun _ => 1) oneRng ctr0).1.1.length ∧
        (80:ℚ) ≤ socEntering 90
          (generateCcCvProfile ChargingType.acL2 350 90 80 82 3 1
            (fun _ => 1) oneRng ctr0).1.2.1 k) ∧
    (∀ k₀, k₀ < (generateCcCvProfile ChargingType.acL2 350 90 80 82 3 1
          (fun _ => 1) oneRng ctr0).1.1.length →
        (80:ℚ) ≤ socEntering 90
          (generateCcCvProfile ChargingType.acL2 350 90 80 82 3 1
            (fun _ => 1) oneRng ctr0).1.2.1 k₀ →
        ∀ k, k₀ ≤ k →
          k < (generateCcCvProfile ChargingType.acL2 350 90 80 82 3 1
            (fun _ => 1) oneRng ctr0).1.1.length →
          (generateCcCvProfile ChargingType.acL2 350 90 80 82 3 1
            (fun _ => 1) oneRng ctr0).1.1.getD k 0 = 0)) :=
  ⟨by norm_num,
    ccCv_completed_iff ChargingType.acL2 350 90 80 82 3 1
      (fun _ => 1) oneRng ctr0 (by norm_num)⟩

theorem ccCvLoop_noise_indep (ct : ChargingType) (bv capKwh dt targetSoc cvTransition : ℚ)
    (expQ : ℚ → ℚ) (r r₂ : Rng) :
    ∀ (n i : ℕ) (soc : ℚ) (completed : Bool) (c c₂ : Ctr),
      (ccCvLoop ct bv capKwh dt targetSoc cvTransition expQ r n i soc completed c).1.2
        = (ccCvLoop ct bv capKwh dt targetSoc cvTransition expQ r₂ n i soc completed c₂).1.2 := by
  intro n
  induction n with
  | zero => intro i soc completed c c₂; rfl
  | succ n ih =>
    intro i soc completed c c₂
    unfold ccCvLoop
    dsimp only
    have h1 : (ccCvStep ct bv capKwh dt targetSoc cvTransition expQ r i soc completed c).1.2.1
        = (ccCvStep ct bv capKwh dt targetSoc cvTransition expQ r₂ i soc completed c₂).1.2.1 :=
      rfl
    have h2 : (ccCvStep ct bv capKwh dt targetSoc cvTransition expQ r i soc completed c).1.2.2
        = (ccCvStep ct bv capKwh dt targetSoc cvTransition expQ r₂ i soc completed c₂).1.2.2 :=
      rfl
    rw [h1, h2]
    exact congrArg (fun p : List ℚ × Bool =>
      ((ccCvStep ct bv capKwh dt targetSoc cvTransition expQ r₂ i soc
          completed c₂).1.2.1 :: p.1, p.2))
      (ih (i + 1) _ _ _ _)

/-- C10: the Gaussian jitter and the 2 %-per-sample transient dip are applied
to the reported current only after the SoC increment of the sample has been
computed from the efficiency-scaled nominal current, so the returned
`soc_profile` and `completed` flag are identical for any two noise streams
(and any counter positions) — only the reported `current_profile` can
differ. -/
theorem ccCv_soc_noise_independent (ct : ChargingType) (bv initialSoc targetSoc capKwh : ℚ)
    (durationSeconds : ℕ) (dt : ℚ) (expQ : ℚ → ℚ) (r r₂ : Rng) (c c₂ : Ctr) :
    (generateCcCvProfile ct bv initialSoc targetSoc capKwh durationSeconds dt expQ r c).1.2
      = (generateCcCvProfile ct bv initialSoc targetSoc capKwh durationSeconds dt
          expQ r₂ c₂).1.2 := by
  unfold generateCcCvProfile
  dsimp only
  exact ccCvLoop_noise_indep ct bv capKwh dt targetSoc _ expQ r r₂ _ 0 initialSoc false c c₂

/-! ## Frequency-governed charging decision (`user_profiles_v2.py`)

The three pseudo-random draws `should_charge` can make (the night-charging
Bernoulli draw, the day-opportunity Bernoulli draw, and the raw uniform draw
behind `random.uniform(current_soc + 15, preferred_soc_target)`) are passed
in explicitly; `random.uniform(a, b)` is modelled as `a + u * (b - a)`. -/

/-- The fields of the `UserBehavior` dataclass that `should_charge` reads. -/
structure V2Behavior where
  preferredSocMin : ℚ
  preferredSocTarget : ℚ
  baseChargesPerWeek : ℚ
  nightChargingProbability : ℚ
  opportunityChargingProbability : ℚ
deriving DecidableEq, Repr

/-- The `COMMON_DRIVER` entry of `USER_PROFILES_V2` (decision-relevant
fields). -/
def commonDriver : V2Behavior :=
  { preferredSocMin := 25
    preferredSocTarget := 85
    baseChargesPerWeek := 4.5
    nightChargingProbability := 0.8
    opportunityChargingProbability := 0.35 }

/-- The mutable counters of `UserBehaviorSimulator` (v2). -/
structure V2State where
  chargesThisWeek : ℕ
  daysSinceLastCharge : ℕ
deriving DecidableEq, Repr

/-- Per-call pseudo-random draws of `should_charge`. -/
structure V2Draws where
  nightDraw : ℚ
  dayDraw : ℚ
  dayTargetU : ℚ
deriving DecidableEq, Repr

/-- The v2 `should_charge` method: Sunday weekly-counter reset, hard safety
charge below 15 %, the preferred-minimum trigger under the weekly budget,
night/day opportunity charging, and the 4-day anti-stranding force charge.
The nested Python control flow is flattened into a guard chain with the
accumulated branch conditions spelled out. -/
def shouldChargeV2 (b : V2Behavior) (s₀ : V2State) (currentSoc : ℚ) (hour : ℕ)
    (dayOfWeek : ℕ) (dr : V2Draws) : (Bool × ℚ) × V2State :=
  let s := if dayOfWeek = 6 then { s₀ with chargesThisWeek := 0 } else s₀
  if currentSoc < 15 then ((true, b.preferredSocTarget), s)
  else if currentSoc ≤ b.preferredSocMin ∧ (s.chargesThisWeek : ℚ) < b.baseChargesPerWeek then
    ((true, b.preferredSocTarget),
      { s with chargesThisWeek := s.chargesThisWeek + 1, daysSinceLastCharge := 0 })
  else if currentSoc ≤ b.preferredSocMin ∧ currentSoc < 20 then
    ((true, b.preferredSocTarget), s)
  else if (s.chargesThisWeek : ℚ) < b.baseChargesPerWeek ∧ (22 ≤ hour ∨ hour ≤ 6)
      ∧ currentSoc < b.preferredSocTarget * 0.9
      ∧ dr.nightDraw < b.nightChargingProbability then
    ((true, b.preferredSocTarget),
      { s with chargesThisWeek := s.chargesThisWeek + 1, daysSinceLastCharge := 0 })
  else if (s.chargesThisWeek : ℚ) < b.baseChargesPerWeek ∧ ¬ (22 ≤ hour ∨ hour ≤ 6)
      ∧ currentSoc < b.preferredSocTarget * 0.7
      ∧ dr.dayDraw < b.opportunityChargingProbability then
    let target := (currentSoc + 15) + dr.dayTargetU * (b.preferredSocTarget - (currentSoc + 15))
    ((true, min target 95),
      { s with chargesThisWeek := s.chargesThisWeek + 1, daysSinceLastCharge := 0 })
  else
    let s1 := { s with daysSinceLastCharge := s.daysSinceLastCharge + 1 }
    if 4 ≤ s1.daysSinceLastCharge ∧ currentSoc < 40 then
      ((true, b.preferredSocTarget),
        { s1 with chargesThisWeek := s1.chargesThisWeek + 1, daysSinceLastCharge := 0 })
    else ((false, 0), s1)

/-- C8 counterexample: with the COMMON_DRIVER profile, counters
(0 charges, 4 days since last charge), SoC 30 < 40, hour 12, a day-opportunity
draw of 0 (< 0.35) and a uniform draw at the low end, `should_charge` returns
`(True, 45.0)` — a partial day-charge target — not
`(True, preferred_soc_target = 85.0)`, refuting the claim as stated. -/
theorem shouldChargeV2_counterexample :
    4 ≤ (V2State.mk 0 4).daysSinceLastCharge ∧ (30:ℚ) < 40 ∧
    (shouldChargeV2 commonDriver (V2State.mk 0 4) 30 12 0 (V2Draws.mk 1 0 0)).1
      = (true, 45) ∧
    (shouldChargeV2 commonDriver (V2State.mk 0 4) 30 12 0 (V2Draws.mk 1 0 0)).1
      ≠ (true, commonDriver.preferredSocTarget) := by
  refine ⟨by norm_num, by norm_num, ?_, ?_⟩
  · norm_num [shouldChargeV2, commonDriver]
  · norm_num [shouldChargeV2, commonDriver]

/-- C8 (amended): `should_charge` (v2) returns `(True, preferred_soc_target)`
whenever SoC is below 15 %, regardless of counters, hour, weekday and draws;
and whenever at least 4 days have elapsed since the last charge and SoC is
below 40 % the decision is True — but the target of that charge is
`preferred_soc_target` only when no opportunity branch fires first: a
day-opportunity charge may return a partial target below it. -/
theorem shouldChargeV2_guarantees (b : V2Behavior) (s : V2State) (soc : ℚ)
    (hour dayOfWeek : ℕ) (dr : V2Draws) :
    (soc < 15 → (shouldChargeV2 b s soc hour dayOfWeek dr).1
        = (true, b.preferredSocTarget)) ∧
    (4 ≤ s.daysSinceLastCharge → soc < 40 →
      (shouldChargeV2 b s soc hour dayOfWeek dr).1.1 = true) := by
  constructor
  · intro h15
    unfold shouldChargeV2
    dsimp only
    split_ifs <;> rfl
  · intro h4 h40
    unfold shouldChargeV2
    dsimp only
    split_ifs <;>
      first
        | rfl
        | (rename_i hneg; exact absurd ⟨Nat.le_succ_of_le h4, h40⟩ hneg)

/-- Witness for C8 (amended): COMMON_DRIVER at SoC 10 with counters
(0 charges, 4 days). -/
theorem shouldChargeV2_guarantees_witness :
    ((10:ℚ) < 15 ∧ 4 ≤ (V2State.mk 0 4).daysSinceLastCharge ∧ (10:ℚ) < 40) ∧
    (((10:ℚ) < 15 → (shouldChargeV2 commonDriver (V2State.mk 0 4) 10 12 0
        (V2Draws.mk 1 1 0)).1 = (true, commonDriver.preferredSocTarget)) ∧
    (4 ≤ (V2State.mk 0 4).daysSinceLastCharge → (10:ℚ) < 40 →
      (shouldChargeV2 commonDriver (V2State.mk 0 4) 10 12 0
        (V2Draws.mk 1 1 0)).1.1 = true)) :=
  ⟨⟨by norm_num, by norm_num, by norm_num⟩,
    shouldChargeV2_guarantees commonDriver (V2State.mk 0 4) 10 12 0 (V2Draws.mk 1 1 0)⟩

/-! ## Anomaly generator (`anomaly_generator.py`)

Fallible operations (the unguarded `base_data[...][start_idx]` lookup and the
`temp_profile[-1]` / `max(...)` calls on possibly-empty sequences) are
modelled with `Option`: `none` is a raised Python exception.  `np.exp` is
abstracted as `expQ` and the pseudo-random draws as explicit streams. -/

/-- Severity tiers of `generate_thermal_event`. -/
inductive Severity where
  | low
  | medium
  | high
  | critical
deriving DecidableEq, Repr

/-- The `rate` field of `severity_params` (°C/min). -/
def severityRate : Severity → ℚ
  | .low => 0.5
  | .medium => 1
  | .high => 2
  | .critical => 3

/-- The `peak` offset above `normal_temp` in `severity_params`. -/
def severityPeakOffset : Severity → ℚ
  | .low => 10
  | .medium => 20
  | .high => 30
  | .critical => 40

/-- Sub-types of `generate_sensor_glitch`. -/
inductive GlitchType where
  | spike
  | dropout
  | noise
deriving DecidableEq, Repr

/-- Event metadata record (`AnomalyEvent`), reduced to the fields that are
not fixed strings: kind, the two wall-clock stamps, and the numeric
parameters. -/
inductive EventRecord where
  | thermalEvent (startTime endTime : ℚ) (severity : Severity)
      (peakTemperature riseRate normalTemp : ℚ)
  | sensorGlitch (startTime endTime : ℚ) (glitchType : GlitchType)
      (normalValue maxDeviation : ℚ)
deriving DecidableEq, Repr

/-- The `generate_thermal_event` method: linear rise with noise clamped at
the severity peak for the first half, exponential decay with noise for the
second half.  `temp_profile[-1]` is read before the fall loop, so a rise
phase of zero samples (duration 0 or 1) raises — modelled as `none`.
`now1`/`now2` are the two `datetime.now()` reads. -/
def generateThermalEvent (normalTemp : ℚ) (durationSeconds : ℕ) (severity : Severity)
    (expQ : ℚ → ℚ) (gRise gFall : ℕ → ℚ) (now1 now2 : ℚ) :
    Option (List ℚ × EventRecord) :=
  let rate := severityRate severity
  let peak := normalTemp + severityPeakOffset severity
  let riseDuration := durationSeconds / 2
  let riseProfile := (List.range riseDuration).map
    (fun (t : ℕ) => min (normalTemp + rate * (t : ℚ) / 60 * (1 + gRise t)) peak)
  match riseProfile.getLast? with
  | none => none
  | some peakTemp =>
    let fallDuration := durationSeconds - riseDuration
    let fallProfile := (List.range fallDuration).map
      (fun (t : ℕ) => normalTemp
        + (peakTemp - normalTemp) * expQ (-(t : ℚ) / ((fallDuration : ℚ) / 3))
        + gFall t)
    some (riseProfile ++ fallProfile,
      .thermalEvent now1 (now2 + (durationSeconds : ℚ)) severity peak rate normalTemp)

/-- Pseudo-random draws of `generate_sensor_glitch`: the raw uniform behind
the spike magnitude (`uniform(5, 10)` modelled as `5 + 5u`), the raw uniforms
behind the dropout values (`uniform(0, 0.1·normal)` as `u·(0.1·normal)`), and
the Gaussian draws behind the noise sub-type (`normal(0, 0.5·normal)` as
`g·(0.5·normal)`). -/
structure GlitchDraws where
  uSpike : ℚ
  uDrop : ℕ → ℚ
  gNoise : ℕ → ℚ

/-- The `generate_sensor_glitch` method.  The `max(...)` over deviations in
the event parameters raises on an empty sequence (`duration_samples = 0`) —
modelled as `none`. -/
def generateSensorGlitch (normalValue : ℚ) (glitchType : GlitchType)
    (durationSamples : ℕ) (expQ : ℚ → ℚ) (dr : GlitchDraws) (now1 now2 : ℚ) :
    Option (List ℚ × EventRecord) :=
  let glitched :=
    match glitchType with
    | .spike =>
      let spikeMagnitude := normalValue * (5 + 5 * dr.uSpike)
      (List.range durationSamples).map (fun (i : ℕ) =>
        if i = 0 then spikeMagnitude
        else normalValue + (spikeMagnitude - normalValue)
          * expQ (-(i : ℚ) / ((durationSamples : ℚ) / 3)))
    | .dropout =>
      (List.range durationSamples).map (fun i => dr.uDrop i * (normalValue * 0.1))
    | .noise =>
      (List.range durationSamples).map (fun i =>
        normalValue + dr.gNoise i * (normalValue * 0.5))
  match (glitched.map (fun v => |v - normalValue|)).max? with
  | none => none
  | some maxDev =>
    some (glitched,
      .sensorGlitch now1 (now2 + (durationSamples : ℚ)) glitchType normalValue maxDev)

/-- One entry of the `anomaly_events` request list of `inject_anomalies`:
`(anomaly_type, start_time_idx, params)` with the `params.get` defaults
resolved by the caller. -/
inductive AnomalyRequest where
  | thermal (startIdx : ℕ) (duration : ℕ) (severity : Severity)
  | sensorGlitch (startIdx : ℕ) (glitchType : GlitchType) (duration : ℕ)
deriving DecidableEq, Repr

/-- The metric series of `base_data` that `inject_anomalies` touches. -/
structure BaseData where
  temperature : List ℚ
  voltage : List ℚ
deriving DecidableEq, Repr

/-- The overlay loop of `inject_anomalies`: write `profile[i]` at
`start_idx + i` while the index is in range, skipping the tail that falls
past the series end (`if start_idx + i < len(...)`). -/
def injectSeries (startIdx : ℕ) : List ℚ → List ℚ → ℕ → List ℚ
  | xs, [], _ => xs
  | xs, v :: rest, i =>
    injectSeries startIdx
      (if startIdx + i < xs.length then xs.set (startIdx + i) v else xs) rest (i + 1)

/-- Per-request noise/clock environment for `inject_anomalies`: each request
index gets its own draw streams and its own pair of `datetime.now()` reads. -/
structure InjectEnv where
  expQ : ℚ → ℚ
  gRise : ℕ → ℕ → ℚ
  gFall : ℕ → ℕ → ℚ
  uSpike : ℕ → ℚ
  uDrop : ℕ → ℕ → ℚ
  gNoise : ℕ → ℕ → ℚ
  nowStart : ℕ → ℚ
  nowEnd : ℕ → ℚ

/-- The request loop of `inject_anomalies`.  The reference value is read from
the ORIGINAL `base_data` at `start_idx` with an unguarded subscript: an
out-of-range index is a raised `IndexError`, modelled as `none`. -/
def injectGo (base : BaseData) (env : InjectEnv) :
    List AnomalyRequest → ℕ → BaseData → List EventRecord →
    Option (BaseData × List EventRecord)
  | [], _, modified, events => some (modified, events)
  | req :: rest, k, modified, events =>
    match req with
    | .thermal startIdx duration severity =>
      match base.temperature.get? startIdx with
      | none => none
      | some normalTemp =>
        match generateThermalEvent normalTemp duration severity env.expQ
            (env.gRise k) (env.gFall k) (env.nowStart k) (env.nowEnd k) with
        | none => none
        | some (profile, event) =>
          injectGo base env rest (k + 1)
            { modified with
              temperature := injectSeries startIdx modified.temperature profile 0 }
            (events ++ [event])
    | .sensorGlitch startIdx glitchType duration =>
      match base.voltage.get? startIdx with
      | none => none
      | some normalValue =>
        match generateSensorGlitch normalValue glitchType duration env.expQ
            ⟨env.uSpike k, env.uDrop k, env.gNoise k⟩ (env.nowStart k) (env.nowEnd k) with
        | none => none
        | some (vals, event) =>
          injectGo base env rest (k + 1)
            { modified with voltage := injectSeries startIdx modified.voltage vals 0 }
            (events ++ [event])

/-- The `inject_anomalies` method: per-metric copies of the base data, then
the request loop. -/
def injectAnomalies (base : BaseData) (requests : List AnomalyRequest)
    (env : InjectEnv) : Option (BaseData × List EventRecord) :=
  injectGo base env requests 0 base []

/-- Concrete noise/clock environment (unit exponential, zero draws, zero
clock) for the C3 instances. -/
def zeroEnv : InjectEnv :=
  { expQ := fun _ => 1
    gRise := fun _ _ => 0
    gFall := fun _ _ => 0
    uSpike := fun _ => 0
    uDrop := fun _ _ => 0
    gNoise := fun _ _ => 0
    nowStart := fun _ => 0
    nowEnd := fun _ => 0 }

/-- C3 counterexample: a thermal request whose `start_idx` (2) is at the
length of the temperature series raises an index error — `inject_anomalies`
neither completes nor produces an event record, refuting the claim that
out-of-range start indices are silently truncated. -/
theorem injectAnomalies_oob_counterexample :
    (BaseData.mk [25, 25] [390, 390]).temperature.length ≤ 2 ∧
    injectAnomalies (BaseData.mk [25, 25] [390, 390])
      [AnomalyRequest.thermal 2 300 Severity.medium] zeroEnv = none := by
  constructor
  · norm_num
  · rfl

theorem injectSeries_length (startIdx : ℕ) :
    ∀ (profile xs : List ℚ) (i : ℕ),
      (injectSeries startIdx xs profile i).length = xs.length := by
  intro profile
  induction profile with
  | nil => intro xs i; rfl
  | cons v rest ih =>
    intro xs i
    unfold injectSeries
    rw [ih]
    split_ifs
    · exact List.length_set xs _ _
    · rfl

theorem injectSeries_outside (startIdx : ℕ) :
    ∀ (profile xs : List ℚ) (i j : ℕ),
      (j < startIdx + i ∨ startIdx + i + profile.length ≤ j) →
      (injectSeries startIdx xs profile i).getD j 0 = xs.getD j 0 := by
  intro profile
  induction profile with
  | nil => intro xs i j _; rfl
  | cons v rest ih =>
    intro xs i j hj
    unfold injectSeries
    have hj2 : j < startIdx + (i + 1) ∨ startIdx + (i + 1) + rest.length ≤ j := by
      rcases hj with h | h
      · exact Or.inl (by omega)
      · rw [List.length_cons] at h
        exact Or.inr (by omega)
    rw [ih _ (i + 1) j hj2]
    split_ifs
    · have hne : startIdx + i ≠ j := by
        rcases hj with h | h
        · omega
        · rw [List.length_cons] at h
          omega
      simp [List.getD_eq_getElem?_getD, List.getElem?_set_ne hne]
    · rfl

theorem generateThermalEvent_some (normalTemp : ℚ) (durationSeconds : ℕ)
    (severity : Severity) (expQ : ℚ → ℚ) (gRise gFall : ℕ → ℚ) (now1 now2 : ℚ)
    (hdur : 2 ≤ durationSeconds) :
    ∃ profile event,
      generateThermalEvent normalTemp durationSeconds severity expQ gRise gFall now1 now2
        = some (profile, event) ∧ profile.length = durationSeconds := by
  have hrise : 1 ≤ durationSeconds / 2 := by omega
  unfold generateThermalEvent
  dsimp only
  cases hlast : ((List.range (durationSeconds / 2)).map
      (fun (t : ℕ) => min (normalTemp
        + severityRate severity * (t : ℚ) / 60 * (1 + gRise t))
        (normalTemp + severityPeakOffset severity))).getLast? with
  | none =>
    exfalso
    have := congrArg List.length (List.getLast?_eq_none_iff.mp hlast)
    rw [List.length_map, List.length_range] at this
    simp at this
    omega
  | some peakTemp =>
    refine ⟨_, _, rfl, ?_⟩
    rw [List.length_append, List.length_map, List.length_range,
      List.length_map, List.length_range]
    omega

/-- C3 (amended): a thermal entry whose `start_idx` is strictly inside the
temperature series (and whose duration is at least 2 s, so the profile
generator itself does not fault) completes, produces exactly its anomaly
event record, leaves the voltage series untouched, preserves the length of
the temperature series, and mutates no sample outside
`[start_idx, start_idx + duration)` — the overlay tail beyond the series end
is silently dropped.  An entry whose `start_idx` is at or beyond the series
length instead faults on the unguarded `base_data["temperature"][start_idx]`
read (see the counterexample). -/
theorem injectAnomalies_thermal_inbounds (base : BaseData)
    (startIdx duration : ℕ) (severity : Severity) (env : InjectEnv)
    (hidx : startIdx < base.temperature.length) (hdur : 2 ≤ duration) :
    ∃ modified event,
      injectAnomalies base [AnomalyRequest.thermal startIdx duration severity] env
        = some (modified, [event]) ∧
      modified.voltage = base.voltage ∧
      modified.temperature.length = base.temperature.length ∧
      ∀ j, (j < startIdx ∨ startIdx + duration ≤ j) →
        modified.temperature.getD j 0 = base.temperature.getD j 0 := by
  have hv : base.temperature.get? startIdx
      = some (base.temperature.get ⟨startIdx, hidx⟩) := List.get?_eq_get hidx
  obtain ⟨profile, event, hgen, hplen⟩ :=
    generateThermalEvent_some (base.temperature.get ⟨startIdx, hidx⟩) duration severity
      env.expQ (env.gRise 0) (env.gFall 0) (env.nowStart 0) (env.nowEnd 0) hdur
  refine ⟨{ base with temperature := injectSeries startIdx base.temperature profile 0 },
    event, ?_, rfl, injectSeries_length _ _ _ _, ?_⟩
  · unfold injectAnomalies injectGo
    dsimp only
    rw [hv]
    dsimp only
    rw [hgen]
    dsimp only
    unfold injectGo
    rfl
  · intro j hj
    apply injectSeries_outside
    rcases hj with h | h
    · exact Or.inl (by omega)
    · exact Or.inr (by omega)

/-- Witness for C3 (amended): a 2-second thermal event at index 1 of a
3-sample series. -/
theorem injectAnomalies_thermal_inbounds_witness :
    (1 < (BaseData.mk [25, 25, 25] [390, 390, 390]).temperature.length ∧ 2 ≤ 2) ∧
    (∃ modified event,
      injectAnomalies (BaseData.mk [25, 25, 25] [390, 390, 390])
        [AnomalyRequest.thermal 1 2 Severity.medium] zeroEnv
        = some (modified, [event]) ∧
      modified.voltage = (BaseData.mk [25, 25, 25] [390, 390, 390]).voltage ∧
      modified.temperature.length
        = (BaseData.mk [25, 25, 25] [390, 390, 390]).temperature.length ∧
      ∀ j, (j < 1 ∨ 1 + 2 ≤ j) →
        modified.temperature.getD j 0
          = (BaseData.mk [25, 25, 25] [390, 390, 390]).temperature.getD j 0) :=
  ⟨⟨by norm_num, by norm_num⟩,
    injectAnomalies_thermal_inbounds (BaseData.mk [25, 25, 25] [390, 390, 390])
      1 2 Severity.medium zeroEnv (by norm_num) (by norm_num)⟩

/-! ## User behavior profiles v1 (`user_profiles.py`) -/

/-- The `UserProfile` enum of `user_profiles.py`. -/
inductive UserProfileE where
  | nightOwl
  | earlyBird
  | spontaneous
  | cautious
  | commuter
  | weekendWarrior
  | ecoConscious
  | performanceEnthusiast
deriving DecidableEq, Repr

/-- The fields of the v1 `UserBehavior` dataclass read by the embedded
methods (wake range in minutes after midnight; the sleep range,
`planning_factor` and `preferred_driving_mode` are never read on the
orchestrator path and are omitted). -/
structure V1Behavior where
  wakeStartMinutes : ℕ
  wakeEndMinutes : ℕ
  peakActivityHours : List ℕ
  avgDailyDistanceLo : ℚ
  avgDailyDistanceHi : ℚ
  weekendDistanceMultiplier : ℚ
  preferredSocMin : ℚ
  preferredSocTarget : ℚ
  chargingAnxietyFactor : ℚ
  nightChargingProbability : ℚ
  opportunityChargingProbability : ℚ
  spontaneityFactor : ℚ
  ecoConsciousness : ℚ
  performancePreference : ℚ
deriving DecidableEq, Repr

/-- The `USER_PROFILES` catalog. -/
def v1Profile : UserProfileE → V1Behavior
  | .nightOwl =>
    { wakeStartMinutes := 600, wakeEndMinutes := 720
      peakActivityHours := [14, 15, 16, 20, 21, 22, 23, 0, 1]
      avgDailyDistanceLo := 30, avgDailyDistanceHi := 80
      weekendDistanceMultiplier := 1.5
      preferredSocMin := 20, preferredSocTarget := 80, chargingAnxietyFactor := 0.7
      nightChargingProbability := 0.3, opportunityChargingProbability := 0.4
      spontaneityFactor := 0.8, ecoConsciousness := 0.4, performancePreference := 0.6 }
  | .earlyBird =>
    { wakeStartMinutes := 300, wakeEndMinutes := 390
      peakActivityHours := [6, 7, 8, 9, 10, 11]
      avgDailyDistanceLo := 40, avgDailyDistanceHi := 100
      weekendDistanceMultiplier := 0.8
      preferredSocMin := 40, preferredSocTarget := 90, chargingAnxietyFactor := 1.3
      nightChargingProbability := 0.9, opportunityChargingProbability := 0.2
      spontaneityFactor := 0.2, ecoConsciousness := 0.7, performancePreference := 0.3 }
  | .spontaneous =>
    { wakeStartMinutes := 420, wakeEndMinutes := 660
      peakActivityHours := [10, 11, 12, 13, 14, 15, 16, 17, 18, 19, 20, 21]
      avgDailyDistanceLo := 20, avgDailyDistanceHi := 150
      weekendDistanceMultiplier := 1.2
      preferredSocMin := 15, preferredSocTarget := 70, chargingAnxietyFactor := 0.5
      nightChargingProbability := 0.5, opportunityChargingProbability := 0.6
      spontaneityFactor := 0.95, ecoConsciousness := 0.5, performancePreference := 0.7 }
  | .cautious =>
    { wakeStartMinutes := 390, wakeEndMinutes := 450
      peakActivityHours := [8, 9, 10, 14, 15, 16, 17]
      avgDailyDistanceLo := 30, avgDailyDistanceHi := 60
      weekendDistanceMultiplier := 0.9
      preferredSocMin := 50, preferredSocTarget := 95, chargingAnxietyFactor := 1.5
      nightChargingProbability := 0.95, opportunityChargingProbability := 0.7
      spontaneityFactor := 0.1, ecoConsciousness := 0.8, performancePreference := 0.1 }
  | .commuter =>
    { wakeStartMinutes := 360, wakeEndMinutes := 420
      peakActivityHours := [7, 8, 17, 18]
      avgDailyDistanceLo := 60, avgDailyDistanceHi := 120
      weekendDistanceMultiplier := 0.4
      preferredSocMin := 30, preferredSocTarget := 85, chargingAnxietyFactor := 1.1
      nightChargingProbability := 0.8, opportunityChargingProbability := 0.3
      spontaneityFactor := 0.3, ecoConsciousness := 0.6, performancePreference := 0.4 }
  | .weekendWarrior =>
    { wakeStartMinutes := 420, wakeEndMinutes := 480
      peakActivityHours := [9, 10, 11, 14, 15, 16]
      avgDailyDistanceLo := 20, avgDailyDistanceHi := 40
      weekendDistanceMultiplier := 4
      preferredSocMin := 25, preferredSocTarget := 90, chargingAnxietyFactor := 1
      nightChargingProbability := 0.6, opportunityChargingProbability := 0.5
      spontaneityFactor := 0.6, ecoConsciousness := 0.4, performancePreference := 0.8 }
  | .ecoConscious =>
    { wakeStartMinutes := 390, wakeEndMinutes := 450
      peakActivityHours := [8, 9, 10, 11, 14, 15, 16, 17]
      avgDailyDistanceLo := 40, avgDailyDistanceHi := 80
      weekendDistanceMultiplier := 1.1
      preferredSocMin := 20, preferredSocTarget := 80, chargingAnxietyFactor := 0.9
      nightChargingProbability := 0.9, opportunityChargingProbability := 0.4
      spontaneityFactor := 0.4, ecoConsciousness := 0.95, performancePreference := 0.1 }
  | .performanceEnthusiast =>
    { wakeStartMinutes := 420, wakeEndMinutes := 510
      peakActivityHours := [9, 10, 17, 18, 19, 20]
      avgDailyDistanceLo := 50, avgDailyDistanceHi := 120
      weekendDistanceMultiplier := 1.5
      preferredSocMin := 30, preferredSocTarget := 90, chargingAnxietyFactor := 1
      nightChargingProbability := 0.7, opportunityChargingProbability := 0.6
      spontaneityFactor := 0.7, ecoConsciousness := 0.2, performancePreference := 0.95 }

/-- The `get_wake_time` method, returning the drawn wake time in minutes
after midnight (the caller reads only `.hour`, i.e. `minutes / 60 % 24`). -/
def getWakeTimeMinutes (p : UserProfileE) (isWeekend : Bool) (r : Rng) (c : Ctr) :
    ℕ × Ctr :=
  let b := v1Profile p
  let startM := if isWeekend ∧ p ≠ UserProfileE.earlyBird
    then b.wakeStartMinutes + 60 else b.wakeStartMinutes
  let endM := if isWeekend ∧ p ≠ UserProfileE.earlyBird
    then b.wakeEndMinutes + 90 else b.wakeEndMinutes
  let variance := (Int.floor (((endM : ℚ) - (startM : ℚ)) * b.spontaneityFactor)).toNat
  pyRandint startM (startM + variance) r c

/-- The `should_drive_now` method. -/
def shouldDriveNow (p : UserProfileE) (hour : ℕ) (isWeekend : Bool) (r : Rng) (c : Ctr) :
    Bool × Ctr :=
  let b := v1Profile p
  let baseProbability : ℚ := if hour ∈ b.peakActivityHours then 0.6 else 0.2
  let baseProbability :=
    if p = UserProfileE.commuter ∧ ¬ isWeekend then
      (if hour ∈ [7, 8, 17, 18] then 0.9 else baseProbability)
    else if p = UserProfileE.weekendWarrior ∧ isWeekend then baseProbability * 2
    else baseProbability
  let probability := baseProbability + (b.spontaneityFactor - 0.5) * 0.2
  let d := pyDraw r c
  (d.1 < probability, d.2)

/-- The `get_trip_distance` method. -/
def getTripDistance (p : UserProfileE) (isWeekend : Bool) (r : Rng) (c : Ctr) :
    ℚ × Ctr :=
  let b := v1Profile p
  let minDist := if isWeekend then b.avgDailyDistanceLo * b.weekendDistanceMultiplier
    else b.avgDailyDistanceLo
  let maxDist := if isWeekend then b.avgDailyDistanceHi * b.weekendDistanceMultiplier
    else b.avgDailyDistanceHi
  if b.spontaneityFactor > 0.7 then pyUniform (minDist * 0.5) (maxDist * 1.5) r c
  else pyUniform (minDist * 0.8) (maxDist * 1.1) r c

/-- The v1 `should_charge` method. -/
def shouldChargeV1 (p : UserProfileE) (currentSoc : ℚ) (hour : ℕ) (r : Rng) (c : Ctr) :
    (Bool × ℚ) × Ctr :=
  let b := v1Profile p
  let threshold := b.preferredSocMin * b.chargingAnxietyFactor
  if currentSoc < threshold then ((true, b.preferredSocTarget), c)
  else if currentSoc < b.preferredSocTarget * 0.8 then
    if 22 ≤ hour ∨ hour ≤ 6 then
      let d := pyDraw r c
      if d.1 < b.nightChargingProbability then ((true, b.preferredSocTarget), d.2)
      else ((false, 0), d.2)
    else
      let d := pyDraw r c
      if d.1 < b.opportunityChargingProbability then
        let t := pyUniform (currentSoc + 20) b.preferredSocTarget r d.2
        ((true, min t.1 100), t.2)
      else ((false, 0), d.2)
  else ((false, 0), c)

/-- Driving styles returned by `get_driving_style`. -/
inductive DriveStyle where
  | eco
  | normal
  | aggressive
deriving DecidableEq, Repr

/-- `random.choices(["eco","normal","aggressive"], weights)` on one raw
uniform draw, picked by cumulative weight. -/
def weightedChoice3 (w1 w2 w3 u : ℚ) : DriveStyle :=
  let total := w1 + w2 + w3
  if u * total < w1 then .eco
  else if u * total < w1 + w2 then .normal
  else .aggressive

/-- The `get_driving_style` method; `isCommute` stands for
`trip_purpose == "commute"` (the orchestrator always passes the default
"normal"). -/
def getDrivingStyle (p : UserProfileE) (isCommute : Bool) (r : Rng) (c : Ctr) :
    DriveStyle × Ctr :=
  let b := v1Profile p
  if isCommute then
    let d := pyDraw r c
    if d.1 < 0.7 then
      ((if b.ecoConsciousness > 0.5 then DriveStyle.eco else DriveStyle.normal), d.2)
    else
      let d2 := pyDraw r d.2
      (weightedChoice3 b.ecoConsciousness (1 - |b.performancePreference - 0.5|)
        b.performancePreference d2.1, d2.2)
  else
    let d2 := pyDraw r c
    (weightedChoice3 b.ecoConsciousness (1 - |b.performancePreference - 0.5|)
      b.performancePreference d2.1, d2.2)

/-- The `get_charging_type_preference` method. -/
def getChargingTypePreference (p : UserProfileE) (urgency : ℚ) (r : Rng) (c : Ctr) :
    ChargingType × Ctr :=
  let b := v1Profile p
  if urgency > 0.8 ∨ b.spontaneityFactor > 0.7 then
    let d := pyDraw r c
    ((if d.1 > 0.3 then ChargingType.dcFast else ChargingType.supercharger), d.2)
  else if b.ecoConsciousness > 0.7 then
    let d := pyDraw r c
    ((if d.1 > 0.2 then ChargingType.acL2 else ChargingType.acL1), d.2)
  else (ChargingType.acL2, c)

/-! ## Driving pattern generators (`driving_patterns.py`) -/

/-- `np.random.choice` over an `n`-element sequence: the chosen index. -/
def npChoiceIdx (n : ℕ) (r : Rng) (c : Ctr) : ℕ × Ctr :=
  let d := npDraw r c
  ((Int.toNat ⌊d.1⌋) % n, d.2)

/-- States of the `generate_city_driving` state machine. -/
inductive CityState where
  | stopped
  | accelerating
  | cruising
  | braking
  | coasting
deriving DecidableEq, Repr

/-- One iteration of the city-driving loop: emitted current, next state,
next state timer, next speed, and counters. -/
def cityStep (dt : ℚ) (r : Rng) (state : CityState) (stateTimer speedMph : ℚ)
    (c : Ctr) : (ℚ × CityState × ℚ × ℚ) × Ctr :=
  match state with
  | .stopped =>
    let stateTimer := stateTimer + dt
    let u := npUniform 30 90 r c
    if stateTimer > u.1 then ((0, .accelerating, 0, speedMph), u.2)
    else ((0, .stopped, stateTimer, speedMph), u.2)
  | .accelerating =>
    let pw := npUniform 30 60 r c
    let nz := npNormal 0 0.1 r pw.2
    let current := -(pw.1 * (1 + nz.1)) * 1000 / 350
    let speedMph := speedMph + 3 * dt
    let thr := npUniform 25 37 r nz.2
    if speedMph ≥ thr.1 then ((current, .cruising, 0, speedMph), thr.2)
    else ((current, .accelerating, stateTimer, speedMph), thr.2)
  | .cruising =>
    let cruisePower := 10 + speedMph * 0.5
    let nz := npNormal 0 0.05 r c
    let current := (-cruisePower * 1000 / 350) * (1 + nz.1)
    let stateTimer := stateTimer + dt
    let thr := npUniform 10 30 r nz.2
    if stateTimer > thr.1 then
      let pd := pyDraw r thr.2
      ((current, if pd.1 > 0.3 then .braking else .coasting, 0, speedMph), pd.2)
    else ((current, .cruising, stateTimer, speedMph), thr.2)
  | .braking =>
    let regen := npUniform 10 30 r c
    let current := regen.1 * 1000 / 350
    let speedMph := speedMph - 6 * dt
    if speedMph ≤ 0 then ((current, .stopped, 0, 0), regen.2)
    else ((current, .braking, stateTimer, speedMph), regen.2)
  | .coasting =>
    let current := (-2 : ℚ) * 1000 / 350
    let speedMph := speedMph - 1.2 * dt
    let stateTimer := stateTimer + dt
    let thr := npUniform 5 15 r c
    if stateTimer > thr.1 ∨ speedMph ≤ 12 then
      ((current, .braking, 0, speedMph), thr.2)
    else ((current, .coasting, stateTimer, speedMph), thr.2)

/-- The city-driving loop over the remaining sample count. -/
def cityLoop (dt : ℚ) (r : Rng) : ℕ → CityState → ℚ → ℚ → Ctr → List ℚ × Ctr
  | 0, _, _, _, c => ([], c)
  | n + 1, state, stateTimer, speedMph, c =>
    let s := cityStep dt r state stateTimer speedMph c
    let rest := cityLoop dt r n s.1.2.1 s.1.2.2.1 s.1.2.2.2 s.2
    (s.1.1 :: rest.1, rest.2)

/-- The `generate_city_driving` method. -/
def generateCityDriving (durationSeconds : ℕ) (dt : ℚ) (r : Rng) (c : Ctr) :
    List ℚ × Ctr :=
  let samples := (Int.floor ((durationSeconds : ℚ) / dt)).toNat
  cityLoop dt r samples CityState.stopped 0 0 c

/-- The highway cruise loop (`for i in range(30, samples)`): passing
maneuver, hill, or noisy cruise. -/
def highwayCruiseLoop (basePower : ℚ) (r : Rng) : ℕ → Ctr → List ℚ × Ctr
  | 0, c => ([], c)
  | n + 1, c =>
    let p1 := pyDraw r c
    let step :=
      if p1.1 < 0.05 then (((-80 : ℚ)) * 1000 / 350, p1.2)
      else
        let p2 := pyDraw r p1.2
        if p2.1 < 0.02 then
          let hf := npUniform 1.3 1.8 r p2.2
          (-(basePower * hf.1) * 1000 / 350, hf.2)
        else
          let v := npNormal 0 0.03 r p2.2
          (-(basePower * (1 + v.1)) * 1000 / 350, v.2)
    let rest := highwayCruiseLoop basePower r n step.2
    (step.1 :: rest.1, rest.2)

/-- The `generate_highway_driving` method: 30-second entry ramp with
decreasing power, then a noisy cruise around a drawn cruise speed. -/
def generateHighwayDriving (durationSeconds : ℕ) (dt : ℚ) (r : Rng) (c : Ctr) :
    List ℚ × Ctr :=
  let samples := (Int.floor ((durationSeconds : ℚ) / dt)).toNat
  let entry := (List.range (min 30 samples)).map
    (fun (i : ℕ) => -((80 : ℚ) - (i : ℚ) * 2) * 1000 / 350)
  let cs := npUniform 56 68 r c
  let basePower := 15 + cs.1 * 0.4
  let cruise := highwayCruiseLoop basePower r (samples - 30) cs.2
  (entry ++ cruise.1, cruise.2)

/-- The eco-driving loop; target speed redrawn from `{0, 50, 70, 90}` every
300 samples. -/
def ecoLoop (dt : ℚ) (r : Rng) : ℕ → ℕ → ℚ → ℚ → Ctr → List ℚ × Ctr
  | 0, _, _, _, c => ([], c)
  | n + 1, i, speedMph, targetSpeed, c =>
    let tg :=
      if i % 300 = 0 then
        let d := npChoiceIdx 4 r c
        (([0, 50, 70, 90] : List ℚ).getD d.1 0, d.2)
      else (targetSpeed, c)
    let speedDiff := tg.1 - speedMph
    let step : ℚ × ℚ :=
      if |speedDiff| > 1 then
        if speedDiff > 0 then
          (-(min 30 (speedDiff * 2)) * 1000 / 350, speedMph + 2 * dt)
        else
          ((min 25 (|speedDiff| * 1.5)) * 1000 / 350, speedMph - 5 * dt)
      else
        ((if speedMph > 0 then -(5 + speedMph * 0.25) * 1000 / 350 else 0), speedMph)
    let rest := ecoLoop dt r n (i + 1) step.2 tg.1 tg.2
    (step.1 :: rest.1, rest.2)

/-- The `generate_eco_driving` method. -/
def generateEcoDriving (durationSeconds : ℕ) (dt : ℚ) (r : Rng) (c : Ctr) :
    List ℚ × Ctr :=
  let samples := (Int.floor ((durationSeconds : ℚ) / dt)).toNat
  ecoLoop dt r samples 0 0 0 c

/-- The `generate_aggressive_driving` method: fixed 60-second
accel/cruise/brake/cruise cycles with noise (not reachable from
`run_simulation`, which always uses the mixed generator, but part of the
component). -/
def generateAggressiveDriving (durationSeconds : ℕ) (dt : ℚ) (r : Rng) (c : Ctr) :
    List ℚ × Ctr :=
  let samples := (Int.floor ((durationSeconds : ℚ) / dt)).toNat
  aggressiveLoop dt r samples 0 c
where
  aggressiveLoop (dt : ℚ) (r : Rng) : ℕ → ℕ → Ctr → List ℚ × Ctr
    | 0, _, c => ([], c)
    | n + 1, i, c =>
      let phase := (i : ℚ) * dt - 60 * ⌊(i : ℚ) * dt / 60⌋
      let base :=
        if phase < 10 then
          let pw := npUniform 100 150 r c
          (-pw.1 * 1000 / 350, pw.2)
        else if phase < 20 then
          let pw := npUniform 40 60 r c
          (-pw.1 * 1000 / 350, pw.2)
        else if phase < 25 then
          let pw := npUniform 40 60 r c
          (pw.1 * 1000 / 350, pw.2)
        else
          let pw := npUniform 20 40 r c
          (-pw.1 * 1000 / 350, pw.2)
      let nz := npNormal 0 0.1 r base.2
      let rest := aggressiveLoop dt r n (i + 1) nz.2
      (base.1 * (1 + nz.1) :: rest.1, rest.2)

/-- The `generate_mixed_driving` method: weighted city/highway/city/eco
segments truncated to the requested sample counts. -/
def generateMixedDriving (durationSeconds : ℕ) (dt : ℚ) (r : Rng) (c : Ctr) :
    List ℚ × Ctr :=
  let samples := (Int.floor ((durationSeconds : ℚ) / dt)).toNat
  let n1 := (Int.floor ((samples : ℚ) * 0.3)).toNat
  let n2 := (Int.floor ((samples : ℚ) * 0.4)).toNat
  let n3 := (Int.floor ((samples : ℚ) * 0.2)).toNat
  let n4 := (Int.floor ((samples : ℚ) * 0.1)).toNat
  let s1 := generateCityDriving (Int.floor ((n1 : ℚ) * dt)).toNat dt r c
  let s2 := generateHighwayDriving (Int.floor ((n2 : ℚ) * dt)).toNat dt r s1.2
  let s3 := generateCityDriving (Int.floor ((n3 : ℚ) * dt)).toNat dt r s2.2
  let s4 := generateEcoDriving (Int.floor ((n4 : ℚ) * dt)).toNat dt r s3.2
  ((s1.1.take n1 ++ s2.1.take n2 ++ s3.1.take n3 ++ s4.1.take n4).take samples, s4.2)

/-! ## Orchestrator (`simulator.py`)

`run_simulation` is embedded as a function of the battery specs, the user
profile, the day count, the anomaly switch, the two seeded random streams,
and the wall-clock stream; the transcendental ambient factor
`np.sin((hour − 6)·π/12)` is abstracted as the function `ambientSin` and
`np.exp` as `expQ`.  The `vehicle_id` lookup (a hard `ValueError` on unknown
ids) is resolved by passing the specs record directly, and the
`random.choice` fallback for an unspecified profile is outside the claim
(the profile is always supplied here). -/

/-- Python `round(x, ndigits)` on the idealised rational value: scale,
round half to even, unscale. -/
def pyRound (x : ℚ) (ndigits : ℕ) : ℚ :=
  let m : ℚ := 10 ^ ndigits
  let y := x * m
  let f : ℤ := ⌊y⌋
  let frac := y - (f : ℚ)
  (if frac < 1/2 then (f : ℚ)
   else if frac > 1/2 then (f : ℚ) + 1
   else if f % 2 = 0 then (f : ℚ) else (f : ℚ) + 1) / m

/-- The `_estimate_range` method. -/
def estimateRange (specs : BatterySpecs) (s : BState) : ℚ :=
  let consumptionWhPerKm : ℚ := if specs.makeTesla then 180 else 150
  s.effectiveCapacityKwh * 1000 * (s.soc / 100) / consumptionWhPerKm

/-- The dict returned by `get_state` (every numeric field rounded for sensor
realism). -/
structure BStateView where
  socPercent : ℚ
  voltage : ℚ
  current : ℚ
  temperature : ℚ
  power : ℚ
  energyKwh : ℚ
  sohPercent : ℚ
  estimatedRangeKm : ℚ
  thermalStatus : ThermalStatus
  thermalShutdown : Bool
deriving DecidableEq, Repr

/-- The `get_state` method. -/
def getState (specs : BatterySpecs) (s : BState) : BStateView :=
  { socPercent := pyRound s.soc 1
    voltage := pyRound s.voltage 1
    current := pyRound s.current 1
    temperature := pyRound s.temperature 1
    power := pyRound (s.voltage * s.current) 1
    energyKwh := pyRound (s.effectiveCapacityKwh * s.soc / 100) 2
    sohPercent := pyRound s.soh 1
    estimatedRangeKm := pyRound (estimateRange specs s) 1
    thermalStatus := s.thermal.currentStatus
    thermalShutdown := s.thermal.shutdownActive }

/-- One telemetry record (`_create_telemetry_record`); the constant
`vehicle_id` string and the `None` location fields are omitted. -/
structure TRecord where
  time : ℚ
  socPercent : ℚ
  voltage : ℚ
  current : ℚ
  temperature : ℚ
  energyKwh : ℚ
  sohPercent : ℚ
  estimatedRangeKm : ℚ
  isCharging : Bool
  isDriving : Bool
  speedKmh : ℚ
  ambientTemp : ℚ
  dataQuality : ℕ
  maxCellTemp : ℚ
  minCellTemp : ℚ
deriving DecidableEq, Repr

/-- The `_create_telemetry_record` method: per-metric Gaussian sensor noise
on voltage/current/temperature (in that dict order), then the cell
temperature spread draw. -/
def createTelemetryRecord (specs : BatterySpecs) (s : BState) (timestamp : ℚ)
    (r : Rng) (c : Ctr) : TRecord × Ctr :=
  let st := getState specs s
  let dV := npNormal 0 (0.01 * |st.voltage|) r c
  let voltage := st.voltage + dV.1
  let dI := npNormal 0 (0.01 * |st.current|) r dV.2
  let current := st.current + dI.1
  let dT := npNormal 0 (0.01 * |st.temperature|) r dI.2
  let temperature := st.temperature + dT.1
  let dCell := npNormal 0 2 r dT.2
  ({ time := timestamp
     socPercent := st.socPercent
     voltage := voltage
     current := current
     temperature := temperature
     energyKwh := st.energyKwh
     sohPercent := st.sohPercent
     estimatedRangeKm := st.estimatedRangeKm
     isCharging := false
     isDriving := false
     speedKmh := 0
     ambientTemp := s.ambientTemp
     dataQuality := 100
     maxCellTemp := temperature + |dCell.1|
     minCellTemp := temperature - |dCell.1| }, dCell.2)

/-- One `battery.apply_current` call within the orchestrator: the two
`check_temperature` timestamps default to `datetime.now()`, consuming two
clock reads. -/
def batteryStep (specs : BatterySpecs) (s : BState) (req dt : ℚ) (r : Rng) (c : Ctr) :
    (BState × ℚ × ℚ × ℚ) × Ctr :=
  let t1 := clkDraw r c
  let t2 := clkDraw r t1.2
  (applyCurrent specs s req dt t1.1 t2.1, t2.2)

/-- The idle per-second loop of `simulate_day`: apply zero current, append a
plain record, advance the clock by `dt`. -/
def idleBlock (specs : BatterySpecs) (dt : ℚ) (r : Rng) :
    ℕ → BState → ℚ → Ctr → List TRecord × BState × ℚ × Ctr
  | 0, s, t, c => ([], s, t, c)
  | n + 1, s, t, c =>
    let bs := batteryStep specs s 0 dt r c
    let tr := createTelemetryRecord specs bs.1.1 t r bs.2
    let rest := idleBlock specs dt r n bs.1.1 (t + dt) tr.2
    (tr.1 :: rest.1, rest.2)

/-- The driving per-second loop of `simulate_day`: apply the profile current
and mark the record as driving with the simplified speed estimate. -/
def drivingBlock (specs : BatterySpecs) (dt : ℚ) (r : Rng) :
    List ℚ → BState → ℚ → Ctr → List TRecord × BState × ℚ × Ctr
  | [], s, t, c => ([], s, t, c)
  | cur :: profile, s, t, c =>
    let bs := batteryStep specs s cur dt r c
    let tr := createTelemetryRecord specs bs.1.1 t r bs.2
    let rest := drivingBlock specs dt r profile bs.1.1 (t + dt) tr.2
    ({ tr.1 with isDriving := true, speedKmh := |cur| * 0.5 } :: rest.1, rest.2)

/-- The charging per-second loop of `simulate_day`: apply the profile
current and mark the record as charging while the current is positive. -/
def chargingBlock (specs : BatterySpecs) (dt : ℚ) (r : Rng) :
    List ℚ → BState → ℚ → Ctr → List TRecord × BState × ℚ × Ctr
  | [], s, t, c => ([], s, t, c)
  | cur :: profile, s, t, c =>
    let bs := batteryStep specs s cur dt r c
    let tr := createTelemetryRecord specs bs.1.1 t r bs.2
    let rest := chargingBlock specs dt r profile bs.1.1 (t + dt) tr.2
    ({ tr.1 with isCharging := decide (cur > 0) } :: rest.1, rest.2)

/-- Hour of day of an epoch-seconds value (`datetime.hour`). -/
def hourOf (t : ℚ) : ℕ := (Int.toNat ⌊t / 3600⌋) % 24

/-- Python `date.weekday()` of an epoch-seconds value (day 0 of the epoch is
a Thursday, weekday 3). -/
def weekdayOf (t : ℚ) : ℕ := ((Int.toNat ⌊t / 86400⌋) + 3) % 7

/-- Midnight of the day containing `t`
(`datetime.now().replace(hour=0, minute=0, second=0, microsecond=0)`). -/
def dayFloor (t : ℚ) : ℚ := ((⌊t / 86400⌋ : ℤ) : ℚ) * 86400

/-- The `DrivingMode` enum. -/
inductive DrivingModeE where
  | city
  | highway
  | aggressive
  | eco
  | mixed
deriving DecidableEq, Repr

/-- One schedule entry of `_generate_daily_schedule` (durations in
seconds). -/
inductive Activity where
  | idle (durationSeconds : ℚ)
  | driving (durationSeconds : ℚ) (mode : DrivingModeE)
  | charging (durationSeconds : ℚ) (chargingType : ChargingType) (targetSoc : ℚ)
deriving DecidableEq, Repr

/-- Duration in seconds of a schedule entry. -/
def activityDuration : Activity → ℚ
  | .idle d => d
  | .driving d _ => d
  | .charging d _ _ => d

/-- The `_generate_commuter_day` method: two commute legs bracketing a
9-hour work idle. -/
def generateCommuterDay (p : UserProfileE) (r : Rng) (c : Ctr) :
    List Activity × Ctr :=
  let td := getTripDistance p false r c
  let commuteTime := (td.1 / 2) / 50
  ([Activity.driving (commuteTime * 3600) DrivingModeE.mixed,
    Activity.idle (9 * 3600),
    Activity.driving (commuteTime * 3600) DrivingModeE.mixed], td.2)

/-- The `_generate_weekend_warrior_day` method. -/
def generateWeekendWarriorDay (p : UserProfileE) (r : Rng) (c : Ctr) :
    List Activity × Ctr :=
  let td := getTripDistance p true r c
  let tripTime := td.1 / 80
  ([Activity.idle (2 * 3600),
    Activity.driving (tripTime / 2 * 3600) DrivingModeE.highway,
    Activity.idle (3 * 3600),
    Activity.driving (tripTime / 2 * 3600) DrivingModeE.highway], td.2)

/-- The trip loop of `_generate_profile_based_day` over the remaining hours
of the day, with its early break two hours before the budget runs out. -/
def profileBasedLoop (p : UserProfileE) (isWeekend : Bool) (remainingHours : ℚ)
    (r : Rng) : List ℕ → ℚ → Ctr → List Activity × Ctr
  | [], _, c => ([], c)
  | hour :: restHours, hoursUsed, c =>
    if hoursUsed ≥ remainingHours - 2 then ([], c)
    else
      let sdn := shouldDriveNow p hour isWeekend r c
      if sdn.1 then
        let td := getTripDistance p isWeekend r sdn.2
        let tripTime := max 0.25 (td.1 / 4 / 40)
        let ds := getDrivingStyle p false r td.2
        let mode := match ds.1 with
          | .eco => DrivingModeE.eco
          | .normal => DrivingModeE.city
          | .aggressive => DrivingModeE.aggressive
        let it := pyUniform 0.5 2 r ds.2
        let rest := profileBasedLoop p isWeekend remainingHours r restHours
            (hoursUsed + tripTime + it.1) it.2
        (Activity.driving (tripTime * 3600) mode :: Activity.idle (it.1 * 3600) :: rest.1,
          rest.2)
      else
        profileBasedLoop p isWeekend remainingHours r restHours hoursUsed sdn.2

/-- The `_generate_profile_based_day` method. -/
def generateProfileBasedDay (p : UserProfileE) (startHour : ℕ) (isWeekend : Bool)
    (r : Rng) (c : Ctr) : List Activity × Ctr :=
  profileBasedLoop p isWeekend ((24 : ℚ) - (startHour : ℚ)) r
    (List.range' startHour (24 - startHour)) 0 c

/-- The `_generate_daily_schedule` method: wake idle, the profile-specific
day, a wall-clock-houred charging decision, and idle padding to 24 h. -/
def generateDailySchedule (p : UserProfileE) (soc effCap : ℚ) (isWeekend : Bool)
    (r : Rng) (c : Ctr) : List Activity × Ctr :=
  let wake := getWakeTimeMinutes p isWeekend r c
  let wakeHour := wake.1 / 60 % 24
  let mid :=
    if p = UserProfileE.commuter ∧ ¬ isWeekend then generateCommuterDay p r wake.2
    else if p = UserProfileE.weekendWarrior ∧ isWeekend then
      generateWeekendWarriorDay p r wake.2
    else generateProfileBasedDay p wakeHour isWeekend r wake.2
  let clk := clkDraw r mid.2
  let sc := shouldChargeV1 p soc (hourOf clk.1) r clk.2
  let charged :=
    if sc.1.1 then
      let b := v1Profile p
      let urgency := max 0 ((b.preferredSocMin - soc) / b.preferredSocMin)
      let ctp := getChargingTypePreference p urgency r sc.2
      let energyNeeded := effCap * (sc.1.2 - soc) / 100
      let hoursNeeded := energyNeeded / (chargerMaxPowerKw ctp.1 * 0.9)
      ([Activity.charging (min (hoursNeeded + 0.5) 8 * 3600) ctp.1 sc.1.2], ctp.2)
    else ([], sc.2)
  let schedule := Activity.idle ((wakeHour : ℚ) * 3600) :: (mid.1 ++ charged.1)
  let total := (schedule.map activityDuration).sum
  ((if total < 86400 then schedule ++ [Activity.idle (86400 - total)] else schedule),
    charged.2)

/-- The activity loop of `simulate_day`: per activity, set the battery's
ambient temperature from the hourly profile, then run the per-second block
(the stored `mode` is not read — the source always calls the mixed
generator for driving blocks). -/
def runActivities (specs : BatterySpecs) (dt : ℚ) (ambientProfile : ℕ → ℚ)
    (expQ : ℚ → ℚ) (r : Rng) :
    List Activity → BState → ℚ → Ctr → List TRecord × BState × ℚ × Ctr
  | [], s, t, c => ([], s, t, c)
  | a :: rest, s, t, c =>
    let s := { s with ambientTemp := ambientProfile (hourOf t) }
    match a with
    | .idle dur =>
      let n := (Int.floor (dur / dt)).toNat
      let blk := idleBlock specs dt r n s t c
      let rr := runActivities specs dt ambientProfile expQ r rest
          blk.2.1 blk.2.2.1 blk.2.2.2
      (blk.1 ++ rr.1, rr.2)
    | .driving dur _ =>
      let prof := generateMixedDriving (Int.toNat ⌊dur⌋) dt r c
      let blk := drivingBlock specs dt r prof.1 s t prof.2
      let rr := runActivities specs dt ambientProfile expQ r rest
          blk.2.1 blk.2.2.1 blk.2.2.2
      (blk.1 ++ rr.1, rr.2)
    | .charging dur chargingType targetSoc =>
      let prof := generateCcCvProfile chargingType specs.nominalVoltage s.soc targetSoc
          s.effectiveCapacityKwh (Int.toNat ⌊dur⌋) dt expQ r c
      let blk := chargingBlock specs dt r prof.1.1 s t prof.2
      let rr := runActivities specs dt ambientProfile expQ r rest
          blk.2.1 blk.2.2.1 blk.2.2.2
      (blk.1 ++ rr.1, rr.2)

/-- A zero telemetry record, used only as the (unreachable) default of
guarded index reads. -/
def defaultTRecord : TRecord :=
  { time := 0, socPercent := 0, voltage := 0, current := 0, temperature := 0
    energyKwh := 0, sohPercent := 0, estimatedRangeKm := 0, isCharging := false
    isDriving := false, speedKmh := 0, ambientTemp := 0, dataQuality := 0
    maxCellTemp := 0, minCellTemp := 0 }

/-- The `_find_activity_periods` method for `is_driving = True`: contiguous
index ranges of driving records (trailing open period closed at the list
end). -/
def findDrivingPeriods : List TRecord → ℕ → Option ℕ → List (ℕ × ℕ)
  | [], _, none => []
  | [], n, some start => [(start, n)]
  | rec :: rest, i, none =>
    if rec.isDriving then findDrivingPeriods rest (i + 1) (some i)
    else findDrivingPeriods rest (i + 1) none
  | rec :: rest, i, some start =>
    if rec.isDriving then findDrivingPeriods rest (i + 1) (some start)
    else (start, i) :: findDrivingPeriods rest (i + 1) none

/-- `generate_thermal_event` as consumed by the orchestrator: the per-sample
noise draws come from the shared `np.random` stream and the two event
timestamps from the wall clock. -/
def generateThermalEventRC (normalTemp : ℚ) (durationSeconds : ℕ) (severity : Severity)
    (expQ : ℚ → ℚ) (r : Rng) (c : Ctr) : Option (List ℚ × EventRecord) × Ctr :=
  let riseDuration := durationSeconds / 2
  let fallDuration := durationSeconds - riseDuration
  let res := generateThermalEvent normalTemp durationSeconds severity expQ
      (fun t => r.npr (c.npK + t))
      (fun t => r.npr (c.npK + riseDuration + t))
      (r.clock c.clkK) (r.clock (c.clkK + 1))
  (res, { c with npK := c.npK + riseDuration + fallDuration, clkK := c.clkK + 2 })

/-- `generate_sensor_glitch` as consumed by the orchestrator. -/
def generateSensorGlitchRC (normalValue : ℚ) (glitchType : GlitchType)
    (durationSamples : ℕ) (expQ : ℚ → ℚ) (r : Rng) (c : Ctr) :
    Option (List ℚ × EventRecord) × Ctr :=
  let consumed := match glitchType with
    | .spike => 1
    | .dropout => durationSamples
    | .noise => durationSamples
  let res := generateSensorGlitch normalValue glitchType durationSamples expQ
      { uSpike := r.npr c.npK
        uDrop := fun i => r.npr (c.npK + i)
        gNoise := fun i => r.npr (c.npK + i) }
      (r.clock c.clkK) (r.clock (c.clkK + 1))
  (res, { c with npK := c.npK + consumed, clkK := c.clkK + 2 })

/-- The overlay loop of the daily thermal anomaly: write the temperature
profile (and ±2 °C cell spread) over the records from `start_idx`, skipping
indices past the end. -/
def overlayThermalRecs (startIdx : ℕ) : List TRecord → List ℚ → ℕ → List TRecord
  | recs, [], _ => recs
  | recs, temp :: rest, i =>
    overlayThermalRecs startIdx
      (if startIdx + i < recs.length then
        recs.set (startIdx + i)
          (let rec0 := recs.getD (startIdx + i) defaultTRecord
           { rec0 with temperature := temp, maxCellTemp := temp + 2
                       minCellTemp := temp - 2 })
       else recs) rest (i + 1)

/-- The overlay loop of the daily sensor glitch on the voltage field. -/
def overlayGlitchRecs (startIdx : ℕ) : List TRecord → List ℚ → ℕ → List TRecord
  | recs, [], _ => recs
  | recs, v :: rest, i =>
    overlayGlitchRecs startIdx
      (if startIdx + i < recs.length then
        recs.set (startIdx + i)
          (let rec0 := recs.getD (startIdx + i) defaultTRecord
           { rec0 with voltage := v })
       else recs) rest (i + 1)

/-- Severity choice of the daily thermal anomaly
(`random.choice(['low', 'medium', 'high'])`). -/
def sevOfIdx (i : ℕ) : Severity :=
  ([Severity.low, Severity.medium, Severity.high].getD i Severity.medium)

/-- Glitch-type choice of the daily sensor glitch
(`random.choice(['spike', 'dropout', 'noise'])`). -/
def glitchOfIdx (i : ℕ) : GlitchType :=
  ([GlitchType.spike, GlitchType.dropout, GlitchType.noise].getD i GlitchType.spike)

/-- The `_inject_daily_anomalies` method: a 5 % thermal event spliced into a
random driving period and a 10 % sensor glitch at a random index (the
charging/rapid-degradation probabilities are listed in the source but have
no generation branch there).  A `none` from a generator would be a raised
exception; it cannot occur for the drawn durations (≥ 180 s and ≥ 1 sample)
and is mapped to the identity. -/
def injectDailyAnomalies (expQ : ℚ → ℚ) (r : Rng) (records : List TRecord) (c : Ctr) :
    (List TRecord × List EventRecord) × Ctr :=
  let d1 := pyDraw r c
  let afterThermal :=
    if d1.1 < 0.05 then
      let periods := findDrivingPeriods records 0 none
      if periods.length ≠ 0 then
        let pc := pyChoiceIdx periods.length r d1.2
        let period := periods.getD pc.1 (0, 0)
        let off := pyRandint 0 (period.2 - period.1 - 300) r pc.2
        let startIdx := period.1 + off.1
        let dur := pyRandint 180 600 r off.2
        let sev := pyChoiceIdx 3 r dur.2
        let gen := generateThermalEventRC
            (records.getD startIdx defaultTRecord).temperature dur.1
            (sevOfIdx sev.1) expQ r sev.2
        match gen.1 with
        | some (profile, event) =>
          ((overlayThermalRecs startIdx records profile 0, [event]), gen.2)
        | none => ((records, []), gen.2)
      else ((records, []), d1.2)
    else ((records, []), d1.2)
  let recs1 := afterThermal.1.1
  let evs1 := afterThermal.1.2
  let d2 := pyDraw r afterThermal.2
  if d2.1 < 0.1 then
    let gi := pyRandint 0 (records.length - 1) r d2.2
    let gt := pyChoiceIdx 3 r gi.2
    let gd := pyRandint 1 5 r gt.2
    let gen := generateSensorGlitchRC (recs1.getD gi.1 defaultTRecord).voltage
        (glitchOfIdx gt.1) gd.1 expQ r gd.2
    match gen.1 with
    | some (vals, event) =>
      ((overlayGlitchRecs gi.1 recs1 vals 0, evs1 ++ [event]), gen.2)
    | none => ((recs1, evs1), gen.2)
  else ((recs1, evs1), d2.2)

/-- The `simulate_day` method for a given date: default sinusoidal ambient
profile, weekday check, daily schedule, activity loop, then the optional
daily anomaly injection. -/
def simulateDay (specs : BatterySpecs) (p : UserProfileE) (includeAnomalies : Bool)
    (dt : ℚ) (ambientSin : ℕ → ℚ) (expQ : ℚ → ℚ) (r : Rng)
    (date : ℚ) (s : BState) (c : Ctr) :
    (List TRecord × List EventRecord) × BState × Ctr :=
  let ambientProfile : ℕ → ℚ := fun h => 20 + 10 * ambientSin h
  let isWeekend := 5 ≤ weekdayOf date
  let sched := generateDailySchedule p s.soc s.effectiveCapacityKwh
      (decide isWeekend) r c
  let run := runActivities specs dt ambientProfile expQ r sched.1 s date sched.2
  if includeAnomalies ∧ 0 < run.1.length then
    let inj := injectDailyAnomalies expQ r run.1 run.2.2.2
    (inj.1, run.2.1, inj.2)
  else ((run.1, []), run.2.1, run.2.2.2)

/-- The per-day loop of `run_simulation`. -/
def dayLoop (specs : BatterySpecs) (p : UserProfileE) (includeAnomalies : Bool)
    (ambientSin : ℕ → ℚ) (expQ : ℚ → ℚ) (r : Rng) :
    ℕ → ℕ → ℚ → BState → Ctr → List TRecord × List EventRecord
  | 0, _, _, _, _ => ([], [])
  | n + 1, day, startDate, s, c =>
    let res := simulateDay specs p includeAnomalies 1 ambientSin expQ r
        (startDate + (day : ℚ) * 86400) s c
    let rest := dayLoop specs p includeAnomalies ambientSin expQ r n (day + 1)
        startDate res.2.1 res.2.2
    (res.1.1 ++ rest.1, res.1.2 ++ rest.2)

/-- The `run_simulation` function: simulator construction (whose
`self.current_time = datetime.now()` burns one clock read), the start date
from a second wall-clock read truncated to midnight, then the day loop (with
`dt = 1.0`).  Returns the concatenated telemetry and event sequences. -/
def runSimulation (specs : BatterySpecs) (p : UserProfileE) (days : ℕ)
    (includeAnomalies : Bool) (ambientSin : ℕ → ℚ) (expQ : ℚ → ℚ) (r : Rng) :
    List TRecord × List EventRecord :=
  let c0 := (clkDraw r ctr0).2
  let s0 := initBattery specs 80 25 100
  let sd := clkDraw r c0
  let startDate := dayFloor sd.1
  dayLoop specs p includeAnomalies ambientSin expQ r days 0 startDate s0 sd.2

/-! ### Wall-clock sensitivity of `run_simulation` (C4)

The seeded `random` / `np.random` streams are fixed below (all raw draws
equal to `1`), while the wall clock differs between the two runs.  With the
CAUTIOUS profile on a weekday these draws produce no trips, no charging
session, and no anomalies, so both runs execute the same schedule of idle
blocks — yet every record timestamp derives from `datetime.now()`, so the
outputs differ. -/

/-- A second run of the same seeded streams, started one week later on the
wall clock. -/
def c4Rng : Rng := { py := fun _ => 1, npr := fun _ => 1, clock := fun _ => 604800 }

/-- Unfolding lemma for the successor case of the idle per-second loop. -/
lemma idleBlock_succ (specs : BatterySpecs) (dt : ℚ) (r : Rng) (n : ℕ) (s : BState)
    (t : ℚ) (c : Ctr) :
    idleBlock specs dt r (n + 1) s t c =
      (let bs := batteryStep specs s 0 dt r c
       let tr := createTelemetryRecord specs bs.1.1 t r bs.2
       let rest := idleBlock specs dt r n bs.1.1 (t + dt) tr.2
       (tr.1 :: rest.1, rest.2)) := rfl

/-- Unfolding lemma for a one-day run of the day loop. -/
lemma dayLoop_one (specs : BatterySpecs) (p : UserProfileE) (an : Bool)
    (ambientSin : ℕ → ℚ) (expQ : ℚ → ℚ) (r : Rng) (day : ℕ) (startDate : ℚ)
    (s : BState) (c : Ctr) :
    dayLoop specs p an ambientSin expQ r 1 day startDate s c =
      ((simulateDay specs p an 1 ambientSin expQ r (startDate + (day : ℚ) * 86400)
          s c).1.1 ++ [],
       (simulateDay specs p an 1 ambientSin expQ r (startDate + (day : ℚ) * 86400)
          s c).1.2 ++ []) := rfl

/-- With every `random.random()` draw equal to 1, `should_drive_now` for the
CAUTIOUS profile declines at every hour (the drive probability never
reaches 1). -/
lemma shouldDriveNow_cautious_one (hour : ℕ) (w : Bool) (r : Rng) (c : Ctr)
    (hpy : r.py c.pyK = 1) :
    shouldDriveNow UserProfileE.cautious hour w r c =
      (false, { c with pyK := c.pyK + 1 }) := by
  unfold shouldDriveNow pyDraw
  dsimp only [v1Profile]
  rw [hpy, if_neg (by simp), if_neg (by simp)]
  split_ifs <;>
    simp only [Prod.mk.injEq, decide_eq_false_iff_not, and_true] <;> norm_num

/-- With every `random.random()` draw equal to 1 the profile-based day loop
of the CAUTIOUS profile schedules no activity at all. -/
lemma profileBasedLoop_cautious_one (r : Rng) (hpy : ∀ k, r.py k = 1) :
    ∀ (w : Bool) (rem : ℚ) (hours : List ℕ) (hu : ℚ) (c : Ctr),
      (profileBasedLoop UserProfileE.cautious w rem r hours hu c).1 = [] := by
  intro w rem hours
  induction hours with
  | nil => intro hu c; rfl
  | cons hour rest ih =>
    intro hu c
    unfold profileBasedLoop
    dsimp only
    rw [shouldDriveNow_cautious_one hour w r c (hpy _)]
    dsimp only
    split_ifs with hguard hfalse
    · rfl
    · exact absurd hfalse (by simp)
    · exact ih hu _

/-- With every `random.random()` draw equal to 1 the CAUTIOUS wake draw is
minute 391 (`randint(390, 396)` on raw draw 1), i.e. a 6 o'clock wake. -/
lemma getWakeTimeMinutes_cautious_one (r : Rng) (hpy : ∀ k, r.py k = 1) :
    ∀ (c : Ctr), getWakeTimeMinutes UserProfileE.cautious false r c =
      (391, { c with pyK := c.pyK + 1 }) := by
  intro c
  unfold getWakeTimeMinutes pyRandint pyDraw
  dsimp only [v1Profile]
  rw [hpy, if_neg (by simp), if_neg (by simp)]
  norm_num
  decide

/-- At 80 % SoC the CAUTIOUS v1 charging decision declines without drawing:
the anxiety threshold is 75 % and the opportunity threshold 76 %. -/
lemma shouldChargeV1_cautious_80 (hour : ℕ) (r : Rng) (c : Ctr) :
    shouldChargeV1 UserProfileE.cautious 80 hour r c = ((false, 0), c) := by
  unfold shouldChargeV1
  dsimp only [v1Profile]
  norm_num


/-- With every `random.random()` draw equal to 1, the CAUTIOUS weekday
schedule opens with the 6-hour sleep idle block. -/
lemma generateDailySchedule_cautious_head (r : Rng) (hpy : ∀ k, r.py k = 1)
    (effCap : ℚ) (c : Ctr) :
    ∃ rest, (generateDailySchedule UserProfileE.cautious 80 effCap false r c).1 =
      Activity.idle 21600 :: rest := by
  unfold generateDailySchedule
  rw [getWakeTimeMinutes_cautious_one r hpy c]
  dsimp only
  rw [show (((391 : ℕ) / 60 % 24 : ℕ) : ℚ) * 3600 = 21600 from by norm_num]
  simp only [List.cons_append]
  rw [← apply_ite (List.cons (Activity.idle (21600 : ℚ)))]
  exact ⟨_, rfl⟩

/-- The head record of the activity loop on a schedule opening with a
nonempty idle block carries the entry timestamp. -/
lemma runActivities_idle_head (specs : BatterySpecs) (ambientProfile : ℕ → ℚ)
    (expQ : ℚ → ℚ) (r : Rng) (dur : ℚ) (rest : List Activity) (s : BState) (t : ℚ)
    (c : Ctr) (n : ℕ) (hn : (Int.floor (dur / 1)).toNat = n + 1) :
    (((runActivities specs 1 ambientProfile expQ r (Activity.idle dur :: rest)
        s t c).1).map TRecord.time).head? = some t := by
  unfold runActivities
  dsimp only
  rw [hn, idleBlock_succ]
  dsimp only
  simp only [List.cons_append, List.map_cons, List.head?_cons]
  rfl

/-- With all seeded draws equal to 1 and a constant wall clock `T` reading a
weekday, the first telemetry record of a one-day CAUTIOUS run of
`run_simulation` is stamped with the midnight of `T` — the record timeline
is anchored to the wall clock, not to the seed. -/
lemma runSimulation_cautious_head_time (r : Rng) (hpy : ∀ k, r.py k = 1) (T : ℚ)
    (hclk : ∀ k, r.clock k = T) (ambientSin : ℕ → ℚ) (expQ : ℚ → ℚ)
    (hwk : ¬ 5 ≤ weekdayOf (dayFloor T)) :
    (((runSimulation veh001 UserProfileE.cautious 1 false ambientSin expQ
        r).1).map TRecord.time).head? = some (dayFloor T) := by
  unfold runSimulation
  dsimp only
  simp only [clkDraw, hclk]
  rw [dayLoop_one]
  dsimp only
  simp only [List.append_nil, Nat.cast_zero, zero_mul, add_zero]
  unfold simulateDay
  dsimp only
  rw [decide_eq_false hwk]
  rw [show (initBattery veh001 80 25 100).soc = 80 from rfl]
  obtain ⟨rest, hsched⟩ := generateDailySchedule_cautious_head r hpy _ _
  rw [hsched]
  simp only [Bool.false_eq_true, false_and, if_false]
  exact runActivities_idle_head _ _ _ _ _ _ _ _ _ 21599 (by norm_num; decide)

/-- C4: the claim that a fixed seed alone makes two independent executions of
`run_simulation` produce identical record sequences (timestamps included) is
refuted: the two runs below share the seeded `random` and `np.random` streams
draw for draw, yet their outputs differ, because `datetime.now()` — read for
the start date, the record timeline, and the schedule's charging-hour check —
is not governed by the seed.  Here the second run starts one week later and
its first telemetry record is stamped 604800 seconds after the first run's. -/
theorem runSimulation_seed_not_reproducible :
    oneRng.py = c4Rng.py ∧ oneRng.npr = c4Rng.npr ∧
    runSimulation veh001 UserProfileE.cautious 1 false (fun _ => 0) (fun _ => 1)
        oneRng ≠
      runSimulation veh001 UserProfileE.cautious 1 false (fun _ => 0) (fun _ => 1)
        c4Rng := by
  refine ⟨rfl, rfl, fun h => ?_⟩
  have hA := runSimulation_cautious_head_time oneRng (fun _ => rfl) 1 (fun _ => rfl)
      (fun _ => 0) (fun _ => 1) (by norm_num [weekdayOf, dayFloor])
  have hB := runSimulation_cautious_head_time c4Rng (fun _ => rfl) 604800
      (fun _ => rfl) (fun _ => 0) (fun _ => 1)
      (by norm_num [weekdayOf, dayFloor]; decide)
  rw [h, hB] at hA
  norm_num [dayFloor] at hA

/-- A stream family extensionally equal to `c4Rng` but syntactically
distinct, exercising the determinism theorem's hypotheses. -/
def c4RngW : Rng :=
  { py := fun k => 1 ^ k, npr := fun k => 1 ^ (k + 1), clock := fun _ => 302400 + 302400 }

/-- C4 (amended): `run_simulation` is deterministic in the seeded PRNG
streams and the wall clock jointly — two executions agreeing on every
`random.*` draw, every `np.random.*` draw, and every `datetime.now()`
reading produce identical telemetry and anomaly event sequences.  The seed
alone does not suffice: the wall clock is an independent input (see the
counterexample above). -/
theorem runSimulation_deterministic (specs : BatterySpecs) (p : UserProfileE)
    (days : ℕ) (includeAnomalies : Bool) (ambientSin : ℕ → ℚ) (expQ : ℚ → ℚ)
    (r1 r2 : Rng) (hpy : ∀ k, r1.py k = r2.py k) (hnp : ∀ k, r1.npr k = r2.npr k)
    (hclk : ∀ k, r1.clock k = r2.clock k) :
    runSimulation specs p days includeAnomalies ambientSin expQ r1 =
      runSimulation specs p days includeAnomalies ambientSin expQ r2 := by
  have h12 : r1 = r2 := by
    obtain ⟨p1, n1, c1⟩ := r1
    obtain ⟨p2, n2, c2⟩ := r2
    simp only [Rng.mk.injEq]
    exact ⟨funext hpy, funext hnp, funext hclk⟩
  rw [h12]

/-- Witness for the amended C4 theorem at two syntactically distinct but
extensionally equal stream triples. -/
theorem runSimulation_deterministic_witness :
    runSimulation veh001 UserProfileE.cautious 1 false (fun _ => 0) (fun _ => 1)
        c4Rng =
      runSimulation veh001 UserProfileE.cautious 1 false (fun _ => 0) (fun _ => 1)
        c4RngW :=
  runSimulation_deterministic veh001 UserProfileE.cautious 1 false (fun _ => 0)
    (fun _ => 1) c4Rng c4RngW (fun k => by norm_num [c4Rng, c4RngW])
    (fun k => by norm_num [c4Rng, c4RngW]) (fun k => by norm_num [c4Rng, c4RngW])

end EVBattery
